import Mathlib

/-
Shallow embedding of the MemeBattle per-room game coordinator
(backend/app/services/game_service.py, room_service.py, player_manager.py,
backend/app/models/game.py).

Conventions of the embedding:
* SQLAlchemy tables become Lean lists of records inside a `DB` structure;
  SQL `SELECT ... WHERE` becomes `List.find?` / `List.filter`, and SQL
  `UPDATE` becomes `List.map` guarded by the row predicate.
* `datetime.utcnow()` and all timestamps/durations are `Int` seconds
  (Python ints/datetimes are exact; `Int` avoids `Nat` truncation in
  expressions such as `300 - (current_round - 1) * 5`).
* `User.rating` is a Python float, but every mutation in the code adds the
  integral constants 1.0 or 5.0, which are exact in floating point, so the
  rating is modelled as `Int`.
* Raised exceptions (`ValidationError`, `NotFoundError`, `PermissionError`)
  become `Except Err`; the FastAPI dependency rolls the transaction back on
  an exception, so an `.error` result leaves the caller's `DB` unchanged.
* `random.choice` / `random.choices` become explicit oracle arguments
  (an index, or a function of picks), so every definition stays executable.
* The SQL row order of `ORDER BY count DESC` leaves the relative order of
  vote-count ties unspecified; aggregation functions therefore take the
  result-row order as an explicit argument constrained by a validity
  predicate, and a deterministic stable sort supplies a default order.
-/

namespace MemeBattle

/-- Game status enumeration from models/game.py `GameStatus`. -/
inductive GameStatus
  | starting
  | round_setup
  | card_selection
  | voting
  | round_results
  | finished
deriving DecidableEq, Repr

/-- Room status enumeration from models/game.py `RoomStatus`. -/
inductive RoomStatus
  | waiting
  | playing
  | finished
  | cancelled
deriving DecidableEq, Repr

/-- Participant membership status from models/game.py `ParticipantStatus`. -/
inductive ParticipantStatus
  | active
  | disconnected
  | left
deriving DecidableEq, Repr

/-- Connection status from models/game.py `ConnectionStatus`. -/
inductive ConnectionStatus
  | connected
  | disconnected
  | timeout
deriving DecidableEq, Repr

/-- Row of the `rooms` table (models/game.py `Room`). -/
structure Room where
  id : Nat
  creator_id : Nat
  max_players : Nat
  status : RoomStatus
  room_code : Option String
  is_public : Bool
deriving DecidableEq, Repr

/-- Row of the `room_participants` table (models/game.py `RoomParticipant`). -/
structure RoomParticipant where
  id : Nat
  room_id : Nat
  user_id : Nat
  status : ParticipantStatus
  connection_status : ConnectionStatus
  disconnect_count : Nat
  missed_actions : Nat
  last_activity : Int
  last_ping : Option Int
deriving DecidableEq, Repr

/-- Row of the `games` table (models/game.py `Game`). -/
structure Game where
  id : Nat
  room_id : Nat
  status : GameStatus
  current_round : Nat
  winner_id : Option Nat
  finished_at : Option Int
deriving DecidableEq, Repr

/-- Row of the `game_rounds` table (models/game.py `GameRound`). -/
structure GameRound where
  id : Nat
  game_id : Nat
  round_number : Nat
  situation_text : String
  duration_seconds : Int
  started_at : Int
  selection_deadline : Int
  voting_deadline : Int
  finished_at : Option Int
  auto_advanced : Bool
deriving DecidableEq, Repr

/-- Row of the `player_choices` table (models/game.py `PlayerChoice`). -/
structure PlayerChoice where
  id : Nat
  round_id : Nat
  user_id : Nat
  card_type : String
  card_number : Nat
  submitted_at : Int
deriving DecidableEq, Repr

/-- Row of the `votes` table (models/game.py `Vote`). -/
structure Vote where
  id : Nat
  round_id : Nat
  voter_id : Nat
  choice_id : Nat
  created_at : Int
deriving DecidableEq, Repr

/-- The slice of the `users` table that the game coordinator touches
(models/user.py `User`): identity, nickname, rating, profile completeness. -/
structure User where
  id : Nat
  nickname : String
  rating : Int
  profile_complete : Bool
deriving DecidableEq, Repr

/-- Row of the `user_cards` table (models/user.py `UserCard`). -/
structure UserCard where
  user_id : Nat
  card_type : String
  card_number : Nat
deriving DecidableEq, Repr

/-- Errors raised by the services (utils/exceptions.py): `ValidationError`,
`NotFoundError`, `PermissionError`. -/
inductive Err
  | validation (msg : String)
  | notFound (msg : String)
  | permission (msg : String)
deriving DecidableEq, Repr

/-- The persistent state: one list per relational table, plus the external
standard-card catalogue (`azure_service.list_cards_in_folder "standard"`),
which the award path reads but never writes. -/
structure DB where
  rooms : List Room
  participants : List RoomParticipant
  games : List Game
  rounds : List GameRound
  choices : List PlayerChoice
  votes : List Vote
  users : List User
  user_cards : List UserCard
  standard_catalog : List Nat
deriving DecidableEq, Repr

/-- SELECT a game by primary key. -/
def DB.findGame (db : DB) (game_id : Nat) : Option Game :=
  db.games.find? (fun g => g.id == game_id)

/-- SELECT a round by primary key. -/
def DB.findRound (db : DB) (round_id : Nat) : Option GameRound :=
  db.rounds.find? (fun r => r.id == round_id)

/-- SELECT a room by primary key. -/
def DB.findRoom (db : DB) (room_id : Nat) : Option Room :=
  db.rooms.find? (fun r => r.id == room_id)

/-- SELECT a user by primary key. -/
def DB.findUser (db : DB) (user_id : Nat) : Option User :=
  db.users.find? (fun u => u.id == user_id)

/-- SELECT a choice by primary key. -/
def DB.findChoice (db : DB) (choice_id : Nat) : Option PlayerChoice :=
  db.choices.find? (fun c => c.id == choice_id)

/-- Participants of a room whose membership status is `active`
(`player_manager.get_active_players` / `room_service._get_active_players_count`). -/
def DB.activeParticipants (db : DB) (room_id : Nat) : List RoomParticipant :=
  db.participants.filter
    (fun p => p.room_id == room_id && p.status == ParticipantStatus.active)

/-- Active participants whose connection status is `connected`
(the `is_connected` filter used by the completion checks). -/
def DB.connectedParticipants (db : DB) (room_id : Nat) : List RoomParticipant :=
  (db.activeParticipants room_id).filter
    (fun p => p.connection_status == ConnectionStatus.connected)

/-- All choices of one round. -/
def DB.roundChoices (db : DB) (round_id : Nat) : List PlayerChoice :=
  db.choices.filter (fun c => c.round_id == round_id)

/-- All votes of one round. -/
def DB.roundVotes (db : DB) (round_id : Nat) : List Vote :=
  db.votes.filter (fun v => v.round_id == round_id)

/-- Number of votes cast for one choice (`COUNT(votes.id) GROUP BY choice`). -/
def DB.voteCount (db : DB) (choice_id : Nat) : Nat :=
  (db.votes.filter (fun v => v.choice_id == choice_id)).length

/-- Whether (room, user) has an `active` participant row
(`game_service._validate_player_in_game`). -/
def DB.isActiveParticipant (db : DB) (room_id user_id : Nat) : Bool :=
  (db.participants.find?
    (fun p => p.room_id == room_id && p.user_id == user_id &&
      p.status == ParticipantStatus.active)).isSome

/-- Whether the user already submitted a choice in the round. -/
def DB.hasChoice (db : DB) (round_id user_id : Nat) : Bool :=
  (db.choices.find?
    (fun c => c.round_id == round_id && c.user_id == user_id)).isSome

/-- Whether the voter already voted in the round. -/
def DB.hasVoted (db : DB) (round_id user_id : Nat) : Bool :=
  (db.votes.find?
    (fun v => v.round_id == round_id && v.voter_id == user_id)).isSome

/-- Whether the user owns the (card_type, card_number) card. -/
def DB.ownsCard (db : DB) (user_id : Nat) (card_type : String) (card_number : Nat) : Bool :=
  (db.user_cards.find?
    (fun c => c.user_id == user_id && c.card_type == card_type &&
      c.card_number == card_number)).isSome

/-- UPDATE games SET ... WHERE id = game_id. -/
def DB.updateGame (db : DB) (game_id : Nat) (f : Game → Game) : DB :=
  { db with games := db.games.map (fun g => if g.id == game_id then f g else g) }

/-- UPDATE game_rounds SET ... WHERE id = round_id. -/
def DB.updateRound (db : DB) (round_id : Nat) (f : GameRound → GameRound) : DB :=
  { db with rounds := db.rounds.map (fun r => if r.id == round_id then f r else r) }

/-- UPDATE rooms SET ... WHERE id = room_id. -/
def DB.updateRoom (db : DB) (room_id : Nat) (f : Room → Room) : DB :=
  { db with rooms := db.rooms.map (fun r => if r.id == room_id then f r else r) }

/-- UPDATE users SET ... WHERE id = user_id. -/
def DB.updateUser (db : DB) (user_id : Nat) (f : User → User) : DB :=
  { db with users := db.users.map (fun u => if u.id == user_id then f u else u) }

/-- UPDATE room_participants SET ... WHERE id = pid. -/
def DB.updateParticipantById (db : DB) (pid : Nat) (f : RoomParticipant → RoomParticipant) : DB :=
  { db with participants :=
      db.participants.map (fun p => if p.id == pid then f p else p) }

/-- ASCII uppercasing of one character, the effect of Python `str.upper()` on
the ASCII room-code strings this repository generates. -/
def pyUpperChar (c : Char) : Char :=
  if 97 ≤ c.toNat ∧ c.toNat ≤ 122 then Char.ofNat (c.toNat - 32) else c

/-- Python `str.upper()` on an ASCII string. -/
def pyUpper (s : String) : String :=
  String.mk (s.data.map pyUpperChar)

/-- Whether a character is an uppercase ASCII letter or an ASCII digit,
the alphabet of `Room.generate_room_code`. -/
def isUpperOrDigit (c : Char) : Bool :=
  (65 ≤ c.toNat && c.toNat ≤ 90) || (48 ≤ c.toNat && c.toNat ≤ 57)

/-- The alphabet `string.ascii_uppercase + string.digits` used by
`Room.generate_room_code` in models/game.py. -/
def roomCodeAlphabet : List Char :=
  "ABCDEFGHIJKLMNOPQRSTUVWXYZ0123456789".data

/-- models/game.py `Room.generate_room_code`:
`''.join(random.choices(string.ascii_uppercase + string.digits, k=6))`.
The six random draws become the explicit oracle `picks`. -/
def Room.generate_room_code (picks : Fin 6 → Fin 36) : String :=
  String.mk ((List.finRange 6).map (fun i =>
    roomCodeAlphabet.get ⟨(picks i).val % roomCodeAlphabet.length, Nat.mod_lt _ (by decide)⟩))

namespace PlayerManager

/-- player_manager.py threshold `MAX_DISCONNECT_COUNT = 3`. -/
def MAX_DISCONNECT_COUNT : Nat := 3

/-- player_manager.py threshold `MAX_MISSED_ACTIONS = 2`. -/
def MAX_MISSED_ACTIONS : Nat := 2

/-- player_manager.py `update_player_activity`: one SQL UPDATE setting
last_activity, last_ping and connection_status for every (room, user) row. -/
def update_player_activity (db : DB) (user_id room_id : Nat) (now : Int) : DB :=
  { db with participants := db.participants.map (fun p =>
      if p.user_id == user_id && p.room_id == room_id then
        { p with last_activity := now, last_ping := some now,
                 connection_status := ConnectionStatus.connected }
      else p) }

/-- Decision record returned by `mark_player_disconnected`. -/
structure DisconnectDecision where
  user_id : Nat
  excluded : Bool
  disconnect_count : Nat
  status : ParticipantStatus
  can_rejoin : Bool
deriving DecidableEq, Repr

/-- player_manager.py `mark_player_disconnected`: increments the disconnect
counter; `should_exclude = new_disconnect_count >= MAX_DISCONNECT_COUNT`;
membership becomes `left` when excluded, otherwise `disconnected`. -/
def mark_player_disconnected (db : DB) (user_id room_id : Nat) (now : Int) :
    Except Err (DB × DisconnectDecision) :=
  match db.participants.find?
      (fun p => p.user_id == user_id && p.room_id == room_id) with
  | none => Except.error (Err.notFound "participant not found in room")
  | some p =>
    let new_disconnect_count := p.disconnect_count + 1
    let should_exclude := decide (new_disconnect_count ≥ MAX_DISCONNECT_COUNT)
    let new_status :=
      if new_disconnect_count ≥ MAX_DISCONNECT_COUNT then ParticipantStatus.left
      else ParticipantStatus.disconnected
    let db1 := db.updateParticipantById p.id (fun q =>
      { q with connection_status := ConnectionStatus.disconnected,
               status := new_status,
               disconnect_count := new_disconnect_count,
               last_activity := now })
    Except.ok (db1,
      { user_id := user_id, excluded := should_exclude,
        disconnect_count := new_disconnect_count, status := new_status,
        can_rejoin := !should_exclude })

/-- Decision record returned by `handle_missed_action`; `status` is `none`
when the participant row was not found (the code then returns only
`excluded: False, missed_actions: 0`). -/
structure MissedDecision where
  user_id : Nat
  excluded : Bool
  missed_actions : Nat
  status : Option ParticipantStatus
deriving DecidableEq, Repr

/-- player_manager.py `handle_missed_action`: increments the missed-action
counter; `should_exclude = new_missed_actions >= MAX_MISSED_ACTIONS`;
membership becomes `left` when excluded and is otherwise untouched;
connection status becomes `timeout` unless excluded (then `disconnected`). -/
def handle_missed_action (db : DB) (user_id room_id : Nat) (now : Int) :
    DB × MissedDecision :=
  match db.participants.find?
      (fun p => p.user_id == user_id && p.room_id == room_id) with
  | none =>
    (db, { user_id := user_id, excluded := false, missed_actions := 0, status := none })
  | some p =>
    let new_missed_actions := p.missed_actions + 1
    let should_exclude := decide (new_missed_actions ≥ MAX_MISSED_ACTIONS)
    let new_status :=
      if new_missed_actions ≥ MAX_MISSED_ACTIONS then ParticipantStatus.left
      else p.status
    let new_connection_status :=
      if should_exclude then ConnectionStatus.disconnected else ConnectionStatus.timeout
    let db1 := db.updateParticipantById p.id (fun q =>
      { q with missed_actions := new_missed_actions,
               status := new_status,
               connection_status := new_connection_status,
               last_activity := now })
    (db1, { user_id := user_id, excluded := should_exclude,
            missed_actions := new_missed_actions, status := some new_status })

/-- player_manager.py `cleanup_inactive_players`: marks as `left` every
participant of the room whose counters reached the hard limits. -/
def cleanup_inactive_players (db : DB) (room_id : Nat) : DB :=
  { db with participants := db.participants.map (fun p =>
      if p.room_id == room_id &&
          (p.disconnect_count ≥ MAX_DISCONNECT_COUNT ||
           p.missed_actions ≥ MAX_MISSED_ACTIONS) then
        { p with status := ParticipantStatus.left }
      else p) }

end PlayerManager

namespace RoomService

/-- room_service.py `_get_active_players_count`. -/
def get_active_players_count (db : DB) (room_id : Nat) : Nat :=
  (db.activeParticipants room_id).length

/-- room_service.py `_join_room_internal`: re-checks waiting status, the
duplicate-participant guard and capacity, then inserts an `active`
participant row (`new_pid` models the autoincrement key). -/
def join_room_internal (db : DB) (room_id user_id new_pid : Nat) (now : Int) :
    Except Err DB :=
  match db.findRoom room_id with
  | none => Except.error (Err.notFound "room not found")
  | some room =>
    if room.status ≠ RoomStatus.waiting then
      Except.error (Err.validation "room is not accepting new players")
    else if db.isActiveParticipant room_id user_id then
      Except.error (Err.validation "you are already in this room")
    else if get_active_players_count db room_id ≥ room.max_players then
      Except.error (Err.validation "room is full")
    else
      Except.ok { db with participants := db.participants ++
        [{ id := new_pid, room_id := room_id, user_id := user_id,
           status := ParticipantStatus.active,
           connection_status := ConnectionStatus.connected,
           disconnect_count := 0, missed_actions := 0,
           last_activity := now, last_ping := none }] }

/-- room_service.py `join_room` (join by id): requires a complete profile,
refuses private rooms with a `PermissionError`, requires waiting status,
rejects a user that is already an active participant with a
`ValidationError`, checks capacity, then delegates to `_join_room_internal`. -/
def join_room (db : DB) (room_id user_id new_pid : Nat) (now : Int) :
    Except Err DB :=
  match db.findUser user_id with
  | none => Except.error (Err.validation "profile must be completed")
  | some user =>
    if !user.profile_complete then
      Except.error (Err.validation "profile must be completed")
    else
      match db.findRoom room_id with
      | none => Except.error (Err.notFound "room not found")
      | some room =>
        if !room.is_public then
          Except.error (Err.permission "this is a private room, use the room code")
        else if room.status ≠ RoomStatus.waiting then
          Except.error (Err.validation "room is not accepting new players")
        else if db.isActiveParticipant room_id user_id then
          Except.error (Err.validation "you are already in this room")
        else if get_active_players_count db room_id ≥ room.max_players then
          Except.error (Err.validation "room is full")
        else
          join_room_internal db room_id user_id new_pid now

/-- room_service.py `join_room_by_code`: requires a complete profile, looks
the room up by `room_code.upper()` among waiting rooms, and delegates to
`_join_room_internal`, bypassing the public/private gate. -/
def join_room_by_code (db : DB) (room_code : String) (user_id new_pid : Nat)
    (now : Int) : Except Err DB :=
  match db.findUser user_id with
  | none => Except.error (Err.validation "profile must be completed")
  | some user =>
    if !user.profile_complete then
      Except.error (Err.validation "profile must be completed")
    else
      match db.rooms.find? (fun r =>
          r.room_code == some (pyUpper room_code) &&
          r.status == RoomStatus.waiting) with
      | none => Except.error (Err.notFound "room with this code not found or already started")
      | some room => join_room_internal db room.id user_id new_pid now

/-- room_service.py `start_game`: only the creator, room must be waiting,
at least 3 active participants; sets the room to `playing` and inserts a
`Game` with status `starting` and `current_round = 1`. -/
def start_game (db : DB) (room_id user_id new_game_id : Nat) :
    Except Err (DB × Game) :=
  match db.findRoom room_id with
  | none => Except.error (Err.notFound "room not found")
  | some room =>
    if room.creator_id ≠ user_id then
      Except.error (Err.permission "only the creator can start the game")
    else if room.status ≠ RoomStatus.waiting then
      Except.error (Err.validation "game already started or room closed")
    else if get_active_players_count db room_id < 3 then
      Except.error (Err.validation "at least 3 players are required")
    else
      let game : Game :=
        { id := new_game_id, room_id := room_id, status := GameStatus.starting,
          current_round := 1, winner_id := none, finished_at := none }
      let db1 := db.updateRoom room_id (fun r => { r with status := RoomStatus.playing })
      Except.ok ({ db1 with games := db1.games ++ [game] }, game)

end RoomService

/-- Insertion step of a descending sort by a `Nat` key. -/
def insertDescBy {α : Type} (key : α → Nat) (x : α) : List α → List α
  | [] => [x]
  | y :: ys => if key x > key y then x :: y :: ys else y :: insertDescBy key x ys

/-- Descending insertion sort by a `Nat` key. It realises one concrete row
order consistent with SQL `ORDER BY count DESC`, whose order among equal
keys is unspecified. -/
def sortDescBy {α : Type} (key : α → Nat) : List α → List α
  | [] => []
  | x :: xs => insertDescBy key x (sortDescBy key xs)

/-- Deduplication keeping the first occurrence, the grouping step of
`GROUP BY user`. -/
def keepFirst : List Nat → List Nat
  | [] => []
  | x :: xs => x :: (keepFirst xs).filter (fun y => y ≠ x)

namespace GameService

/-- game_service.py `CARD_SELECTION_TIMEOUT = 300` (seconds). -/
def CARD_SELECTION_TIMEOUT : Int := 300

/-- game_service.py `VOTING_TIMEOUT = 180` (seconds). -/
def VOTING_TIMEOUT : Int := 180

/-- game_service.py `RESULTS_DISPLAY_TIME = 5` (seconds). -/
def RESULTS_DISPLAY_TIME : Int := 5

/-- game_service.py `_award_round_points`: +1 rating to the round winner
(no-op when the user row is missing). -/
def award_round_points (db : DB) (user_id : Nat) : DB :=
  match db.findUser user_id with
  | none => db
  | some _ => db.updateUser user_id (fun u => { u with rating := u.rating + 1 })

/-- game_service.py `_award_game_victory_points`: +5 rating to the game
winner (no-op when the user row is missing). -/
def award_game_victory_points (db : DB) (user_id : Nat) : DB :=
  match db.findUser user_id with
  | none => db
  | some _ => db.updateUser user_id (fun u => { u with rating := u.rating + 5 })

/-- card_service.py `get_available_standard_cards_for_user`: the standard
catalogue minus the standard cards the user already owns. -/
def available_standard_cards_for_user (db : DB) (user_id : Nat) : List Nat :=
  db.standard_catalog.filter (fun n =>
    !((db.user_cards.find? (fun c => c.user_id == user_id &&
        c.card_type == "standard" && c.card_number == n)).isSome))

/-- game_service.py `_award_winner_card_async`: grants one standard card the
user does not yet own; `random.choice` becomes the oracle index `pick`. -/
def award_winner_card (db : DB) (user_id : Nat) (pick : Nat) : DB :=
  match available_standard_cards_for_user db user_id with
  | [] => db
  | a :: rest =>
    let card_number := (a :: rest).getD (pick % (rest.length + 1)) a
    { db with user_cards := db.user_cards ++
        [{ user_id := user_id, card_type := "standard", card_number := card_number }] }

/-- Choices belonging to any round of the game (the `PlayerChoice` to
`GameRound` inner join of `end_game`). -/
def gameChoices (db : DB) (game_id : Nat) : List PlayerChoice :=
  db.choices.filter (fun c =>
    match db.findRound c.round_id with
    | some r => r.game_id == game_id
    | none => false)

/-- Per-user vote total over the game, the `COUNT(votes.id)` labelled
`round_wins` in `end_game` (it counts votes received, not rounds won). -/
def userGameVotes (db : DB) (game_id user_id : Nat) : Nat :=
  (((gameChoices db game_id).filter (fun c => c.user_id == user_id)).map
    (fun c => db.voteCount c.id)).sum

/-- Users appearing in the `end_game` statistics query: those with at least
one choice in a round of the game (inner joins drop the rest). -/
def statsUsers (db : DB) (game_id : Nat) : List Nat :=
  keepFirst ((gameChoices db game_id).map (fun c => c.user_id))

/-- The `end_game` leaderboard: stats users with their vote totals, ordered
by total descending (tie order is the database's choice). -/
def leaderboard (db : DB) (game_id : Nat) : List (Nat × Nat) :=
  (sortDescBy (fun u => userGameVotes db game_id u) (statsUsers db game_id)).map
    (fun u => (u, userGameVotes db game_id u))

/-- game_service.py `end_game`: ranks stats users by vote totals, takes the
first row as `winner_id` (set on the game unconditionally), marks game and
room `finished`, and grants the +5 rating and the card award only when the
top row's vote total is positive (and, by Python truthiness of
`winner_id`, the id is nonzero). -/
def end_game (db : DB) (game_id : Nat) (now : Int) (pick : Nat) :
    Except Err (DB × Option Nat) :=
  match db.findGame game_id with
  | none => Except.error (Err.notFound "game not found")
  | some game =>
    let lb := leaderboard db game_id
    let winner_id := lb.head?.map Prod.fst
    let db1 := db.updateGame game_id (fun g =>
      { g with status := GameStatus.finished, winner_id := winner_id,
               finished_at := some now })
    let db2 :=
      match db.findRoom game.room_id with
      | some _ => db1.updateRoom game.room_id
          (fun r => { r with status := RoomStatus.finished })
      | none => db1
    let db3 :=
      match lb.head? with
      | some (uid, wins) =>
        if uid ≠ 0 ∧ wins > 0 then
          award_game_victory_points (award_winner_card db2 uid pick) uid
        else db2
      | none => db2
    Except.ok (db3, winner_id)

/-- Outcome of `start_round`: either a new round was created, or the game
was ended because fewer than 3 active players remained. -/
inductive StartRoundOutcome
  | started (db : DB) (r : GameRound)
  | ended (db : DB) (winner : Option Nat)
deriving DecidableEq, Repr

/-- game_service.py `start_round`: requires status `starting` or
`round_results`; cleans up excluded players; ends the game when fewer than
3 active players remain; otherwise computes
`duration = CARD_SELECTION_TIMEOUT - (current_round - 1) * 5` for
`current_round <= 5` and `30` beyond, creates the round numbered
`current_round + 1` with `selection_deadline = now + duration` and
`voting_deadline = now + duration + VOTING_TIMEOUT`, and advances the game
to `card_selection` with the incremented `current_round`. -/
def start_round (db : DB) (game_id : Nat) (situation_text : Option String)
    (now : Int) (new_round_id pick : Nat) : Except Err StartRoundOutcome :=
  match db.findGame game_id with
  | none => Except.error (Err.notFound "game not found")
  | some game =>
    if game.status ≠ GameStatus.starting ∧ game.status ≠ GameStatus.round_results then
      Except.error (Err.validation "cannot start a new round in the current game state")
    else
      let db1 := PlayerManager.cleanup_inactive_players db game.room_id
      if (db1.activeParticipants game.room_id).length < 3 then
        match end_game db1 game_id now pick with
        | Except.ok (db2, w) => Except.ok (StartRoundOutcome.ended db2 w)
        | Except.error e => Except.error e
      else
        let duration : Int :=
          if (game.current_round : Int) ≤ 5 then
            CARD_SELECTION_TIMEOUT - ((game.current_round : Int) - 1) * 5
          else 30
        let next_round_number := game.current_round + 1
        let situation :=
          situation_text.getD ("Generating situation for round " ++ toString next_round_number)
        let r : GameRound :=
          { id := new_round_id, game_id := game_id,
            round_number := next_round_number, situation_text := situation,
            duration_seconds := duration, started_at := now,
            selection_deadline := now + duration,
            voting_deadline := now + duration + VOTING_TIMEOUT,
            finished_at := none, auto_advanced := false }
        let db2 := { db1 with rounds := db1.rounds ++ [r] }
        let db3 := db2.updateGame game_id (fun g =>
          { g with status := GameStatus.card_selection,
                   current_round := next_round_number })
        Except.ok (StartRoundOutcome.started db3 r)

/-- game_service.py `start_voting`: refuses unless the game is in
`card_selection` and the round has at least 3 choices, then sets the game
status to `voting`. -/
def start_voting (db : DB) (round_id : Nat) : Except Err DB :=
  match db.findRound round_id with
  | none => Except.error (Err.notFound "round not found")
  | some game_round =>
    match db.findGame game_round.game_id with
    | none => Except.error (Err.notFound "game not found")
    | some game =>
      if game.status ≠ GameStatus.card_selection then
        Except.error (Err.validation "voting can only start after card selection")
      else if (db.roundChoices round_id).length < 3 then
        Except.error (Err.validation "at least 3 choices are required for voting")
      else
        Except.ok (db.updateGame game.id (fun g => { g with status := GameStatus.voting }))

/-- game_service.py `submit_card_choice`: guards in source order (status,
deadline, active participant, activity touch, duplicate choice, card
ownership), then inserts the choice. The source deliberately does not
invoke any completion check afterwards (the comment above its return:
voting is started manually through the API). -/
def submit_card_choice (db : DB) (round_id user_id : Nat) (card_type : String)
    (card_number : Nat) (now : Int) (new_choice_id : Nat) :
    Except Err (DB × PlayerChoice) :=
  match db.findRound round_id with
  | none => Except.error (Err.notFound "round not found")
  | some game_round =>
    match db.findGame game_round.game_id with
    | none => Except.error (Err.notFound "game not found")
    | some game =>
      if game.status ≠ GameStatus.card_selection then
        Except.error (Err.validation "card selection time is over")
      else if now > game_round.selection_deadline then
        Except.error (Err.validation "time to choose a card is over")
      else if !(db.isActiveParticipant game.room_id user_id) then
        Except.error (Err.permission "you are not a player of this game")
      else
        let db1 := PlayerManager.update_player_activity db user_id game.room_id now
        if db1.hasChoice round_id user_id then
          Except.error (Err.validation "you already chose a card for this round")
        else if !(db1.ownsCard user_id card_type card_number) then
          Except.error (Err.validation "you do not own this card")
        else
          let choice : PlayerChoice :=
            { id := new_choice_id, round_id := round_id, user_id := user_id,
              card_type := card_type, card_number := card_number,
              submitted_at := now }
          Except.ok ({ db1 with choices := db1.choices ++ [choice] }, choice)

/-- game_service.py `_check_all_players_chose_cards`: starts voting when the
round has at least as many choices as currently connected participants and
more than one participant is connected. Defined in the source but invoked
by no caller of `submit_card_choice`. -/
def check_all_players_chose_cards (db : DB) (game_id round_id : Nat) :
    Except Err DB :=
  match db.findGame game_id with
  | none => Except.error (Err.notFound "game not found")
  | some game =>
    let connected := (db.connectedParticipants game.room_id).length
    let choices_count := (db.roundChoices round_id).length
    if choices_count ≥ connected ∧ connected > 1 then
      start_voting db round_id
    else
      Except.ok db

/-- game_service.py `_check_all_players_voted`: the condition under which a
result-calculation task is scheduled after a vote; it performs no direct
database write itself. -/
def check_all_players_voted (db : DB) (game_id round_id : Nat) : Bool :=
  match db.findGame game_id with
  | none => false
  | some game =>
    let connected := (db.connectedParticipants game.room_id).length
    decide ((db.roundVotes round_id).length ≥ connected ∧ connected > 1)

/-- game_service.py `submit_vote`: guards in source order (status, deadline,
active participant, activity touch, duplicate vote, choice existence in the
round, own-choice ban), then inserts the vote. The completion check it
triggers afterwards only schedules an asynchronous result-calculation task
and writes nothing itself. -/
def submit_vote (db : DB) (round_id user_id choice_id : Nat) (now : Int)
    (new_vote_id : Nat) : Except Err (DB × Vote) :=
  match db.findRound round_id with
  | none => Except.error (Err.notFound "round not found")
  | some game_round =>
    match db.findGame game_round.game_id with
    | none => Except.error (Err.notFound "game not found")
    | some game =>
      if game.status ≠ GameStatus.voting then
        Except.error (Err.validation "voting time is over")
      else if now > game_round.voting_deadline then
        Except.error (Err.validation "time to vote is over")
      else if !(db.isActiveParticipant game.room_id user_id) then
        Except.error (Err.permission "you are not a player of this game")
      else
        let db1 := PlayerManager.update_player_activity db user_id game.room_id now
        if db1.hasVoted round_id user_id then
          Except.error (Err.validation "you already voted in this round")
        else
          match db1.findChoice choice_id with
          | none => Except.error (Err.validation "card choice not found")
          | some choice =>
            if choice.round_id ≠ round_id then
              Except.error (Err.validation "card choice not found")
            else if choice.user_id == user_id then
              Except.error (Err.validation "you cannot vote for your own card")
            else
              let vote : Vote :=
                { id := new_vote_id, round_id := round_id, voter_id := user_id,
                  choice_id := choice_id, created_at := now }
              Except.ok ({ db1 with votes := db1.votes ++ [vote] }, vote)

/-- Result summary of `calculate_round_results`. -/
structure RoundResult where
  winner : Option PlayerChoice
  max_votes : Int
deriving DecidableEq, Repr

/-- The winner-selection loop of `calculate_round_results`: a fold over the
query rows starting from `max_votes = -1` that replaces the winner only on
a strictly greater vote count, so the first row of the result order wins
all ties. -/
def pickWinnerStep (db : DB) (acc : RoundResult) (row : PlayerChoice) : RoundResult :=
  if (db.voteCount row.id : Int) > acc.max_votes then
    { winner := some row, max_votes := (db.voteCount row.id : Int) }
  else acc

/-- The fold of `pickWinnerStep` over the query rows, starting from
`max_votes = -1` exactly as the source loop does. -/
def pickWinner (db : DB) (rows : List PlayerChoice) : RoundResult :=
  rows.foldl (pickWinnerStep db) { winner := none, max_votes := -1 }

/-- Validity of a row order for the `calculate_round_results` query: the
rows are exactly the round's choices, ordered by vote count descending;
the relative order of equal counts is the database's unspecified choice. -/
def resultRowsValid (db : DB) (round_id : Nat) (rows : List PlayerChoice) : Prop :=
  rows.Perm (db.roundChoices round_id) ∧
  rows.Pairwise (fun a b => db.voteCount b.id ≤ db.voteCount a.id)

/-- One concrete valid row order (used by the deterministic timeout path). -/
def defaultResultRows (db : DB) (round_id : Nat) : List PlayerChoice :=
  sortDescBy (fun c => db.voteCount c.id) (db.roundChoices round_id)

/-- game_service.py `calculate_round_results`: runs the winner-selection
loop over the query rows, atomically sets the game status to
`round_results` and the round's `finished_at`, and awards +1 rating to the
winner's user only when a winner exists with a positive vote count. The
next-round scheduling it then performs is modelled separately by
`schedule_next_round`. -/
def calculate_round_results (db : DB) (round_id : Nat)
    (rows : List PlayerChoice) (now : Int) : Except Err (DB × RoundResult) :=
  match db.findRound round_id with
  | none => Except.error (Err.notFound "round not found")
  | some game_round =>
    match db.findGame game_round.game_id with
    | none => Except.error (Err.notFound "game not found")
    | some game =>
      let res := pickWinner db rows
      let db1 := db.updateGame game.id (fun g =>
        { g with status := GameStatus.round_results })
      let db2 := db1.updateRound round_id (fun r => { r with finished_at := some now })
      let db3 :=
        match res.winner with
        | some w => if res.max_votes > 0 then award_round_points db2 w.user_id else db2
        | none => db2
      Except.ok (db3, res)

/-- game_service.py `_schedule_next_round`: after the results display delay,
ends the game when the finished round's number has reached 7, otherwise
starts the next round. -/
def schedule_next_round (db : DB) (game_id current_round : Nat) (now : Int)
    (new_round_id pick : Nat) : Except Err StartRoundOutcome :=
  match db.findGame game_id with
  | none => Except.error (Err.notFound "game not found")
  | some _ =>
    if current_round ≥ 7 then
      match end_game db game_id now pick with
      | Except.ok (db2, w) => Except.ok (StartRoundOutcome.ended db2 w)
      | Except.error e => Except.error e
    else
      start_round db game_id none now new_round_id pick

/-- game_service.py `_handle_selection_timeout`: when the deadline fires it
re-reads the game and returns without touching anything unless the status
is still `card_selection`; otherwise it records missed actions for active
players without a choice, then either starts voting (at least 3 choices)
or ends the game. Swallowed exceptions leave the state as it was at that
point. -/
def handle_selection_timeout (db : DB) (round_id : Nat) (now : Int) (pick : Nat) : DB :=
  match db.findRound round_id with
  | none => db
  | some game_round =>
    match db.findGame game_round.game_id with
    | none => db
    | some game =>
      if game.status ≠ GameStatus.card_selection then db
      else
        let actives := db.activeParticipants game.room_id
        let withChoice := (db.roundChoices round_id).map (fun c => c.user_id)
        let db1 := actives.foldl (fun acc p =>
          if withChoice.contains p.user_id then acc
          else (PlayerManager.handle_missed_action acc p.user_id game.room_id now).1) db
        if (db1.roundChoices round_id).length ≥ 3 then
          match start_voting db1 round_id with
          | Except.ok db2 => db2
          | Except.error _ => db1
        else
          match end_game db1 game_round.game_id now pick with
          | Except.ok (db2, _) => db2
          | Except.error _ => db1

/-- game_service.py `_handle_voting_timeout`: when the deadline fires it
re-reads the game and returns without touching anything unless the status
is still `voting`; otherwise it records missed actions for active players
without a vote, sets `auto_advanced` and calculates the round results. -/
def handle_voting_timeout (db : DB) (round_id : Nat) (now : Int) : DB :=
  match db.findRound round_id with
  | none => db
  | some game_round =>
    match db.findGame game_round.game_id with
    | none => db
    | some game =>
      if game.status ≠ GameStatus.voting then db
      else
        let actives := db.activeParticipants game.room_id
        let withVote := (db.roundVotes round_id).map (fun v => v.voter_id)
        let db1 := actives.foldl (fun acc p =>
          if withVote.contains p.user_id then acc
          else (PlayerManager.handle_missed_action acc p.user_id game.room_id now).1) db
        let db2 := db1.updateRound round_id (fun r => { r with auto_advanced := true })
        match calculate_round_results db2 round_id (defaultResultRows db2 round_id) now with
        | Except.ok (db3, _) => db3
        | Except.error _ => db2

end GameService

/-! Reference definitions written from the specification's words, kept apart
from the source embedding above so the two can be compared. -/

/-- Reference definition following the specification's selection-duration
schedule, indexed by round number: 1 -> 50, 2 -> 45, 3 -> 40, 4 -> 35 and
30 from round 5 on. Stated for comparison with the duration `start_round`
actually computes. -/
def specSelectionSchedule : Nat → Nat
  | 1 => 50
  | 2 => 45
  | 3 => 40
  | 4 => 35
  | _ => 30

/-- Reference definition following the specification's words for the winner
of a round: the choice with the highest vote count, earliest submission
breaking ties. Stated for comparison with what `end_game` computes. -/
def specRoundWinner (db : DB) (round_id : Nat) : Option Nat :=
  ((db.roundChoices round_id).foldl (fun acc c =>
    match acc with
    | none => some c
    | some b =>
      if db.voteCount c.id > db.voteCount b.id ||
          (db.voteCount c.id == db.voteCount b.id && c.submitted_at < b.submitted_at) then
        some c
      else some b) none).map (fun c => c.user_id)

/-- Reference definition following the specification's words: the number of
rounds of the game won by the user. -/
def specRoundsWon (db : DB) (game_id user_id : Nat) : Nat :=
  ((db.rounds.filter (fun r => r.game_id == game_id)).filter
    (fun r => specRoundWinner db r.id == some user_id)).length

/-! Extractors and reusable predicates for stating theorems about the
`Except`-valued operations. -/

/-- The empty database, the default of the extractors below. -/
def emptyDB : DB :=
  { rooms := [], participants := [], games := [], rounds := [], choices := [],
    votes := [], users := [], user_cards := [], standard_catalog := [] }

/-- A placeholder round, the default of `Option.getD` in witnesses. -/
def dummyRound : GameRound :=
  { id := 0, game_id := 0, round_number := 0, situation_text := "",
    duration_seconds := 0, started_at := 0, selection_deadline := 0,
    voting_deadline := 0, finished_at := none, auto_advanced := false }

/-- Database component of a successful operation result. -/
def dbOf {β : Type} : Except Err (DB × β) → DB
  | Except.ok (db, _) => db
  | Except.error _ => emptyDB

/-- Winner component of an `end_game` result. -/
def winnerOf : Except Err (DB × Option Nat) → Option Nat
  | Except.ok (_, w) => w
  | Except.error _ => none

/-- The created round of a `start_round` result, when one was created. -/
def outcomeRound : Except Err GameService.StartRoundOutcome → Option GameRound
  | Except.ok (GameService.StartRoundOutcome.started _ r) => some r
  | _ => none

/-- The database of a `start_round` result. -/
def outcomeDB : Except Err GameService.StartRoundOutcome → DB
  | Except.ok (GameService.StartRoundOutcome.started db _) => db
  | Except.ok (GameService.StartRoundOutcome.ended db _) => db
  | Except.error _ => emptyDB

/-- Whether an `Except` result is a success. -/
def isOk {α : Type} : Except Err α → Bool
  | Except.ok _ => true
  | Except.error _ => false

/-- Whether a result is a `ValidationError` or a `PermissionError`. -/
def isValidationOrPermission {α : Type} : Except Err α → Bool
  | Except.error (Err.validation _) => true
  | Except.error (Err.permission _) => true
  | _ => false

/-- Invariant: no stored vote references a choice made by the voter. -/
def noSelfVotes (db : DB) : Prop :=
  ∀ v ∈ db.votes, ∀ c, db.findChoice v.choice_id = some c → c.user_id ≠ v.voter_id

/-- Invariant: at most one vote per (round, voter). -/
def oneVotePerVoter (db : DB) : Prop :=
  db.votes.Pairwise (fun a b => ¬(a.round_id = b.round_id ∧ a.voter_id = b.voter_id))

/-- The acceptance condition of `submit_vote`, phrased over the round and
game rows it reads. -/
def submitVoteOk (db : DB) (game : Game) (rnd : GameRound)
    (round_id user_id choice_id : Nat) (now : Int) : Prop :=
  game.status = GameStatus.voting ∧
  now ≤ rnd.voting_deadline ∧
  db.isActiveParticipant game.room_id user_id = true ∧
  db.hasVoted round_id user_id = false ∧
  ∃ c, db.findChoice choice_id = some c ∧ c.round_id = round_id ∧ c.user_id ≠ user_id

/-- The card-award effect of `end_game` on the winner: either no standard
card was available, or exactly one standard card the user did not own was
appended. -/
def cardAwardOk (dbOld dbNew : DB) (uid : Nat) : Prop :=
  (dbNew.user_cards = dbOld.user_cards ∧
    GameService.available_standard_cards_for_user dbOld uid = []) ∨
  ∃ n, n ∈ GameService.available_standard_cards_for_user dbOld uid ∧
    dbNew.user_cards = dbOld.user_cards ++
      [{ user_id := uid, card_type := "standard", card_number := n }]

/-! Concrete sample worlds used by witnesses and counterexamples. -/

/-- Sample user 1 (a room creator with a complete profile). -/
def userA : User := { id := 1, nickname := "Alice", rating := 0, profile_complete := true }

/-- Sample user 2. -/
def userB : User := { id := 2, nickname := "Bob", rating := 0, profile_complete := true }

/-- Sample user 3. -/
def userC : User := { id := 3, nickname := "Carol", rating := 0, profile_complete := true }

/-- Sample user 4 (not a participant of the sample room). -/
def userD : User := { id := 4, nickname := "Dave", rating := 0, profile_complete := true }

/-- Sample public waiting room with join code A1B2C3. -/
def room1 : Room :=
  { id := 1, creator_id := 1, max_players := 6, status := RoomStatus.waiting,
    room_code := some "A1B2C3", is_public := true }

/-- The sample room once its game is running. -/
def room1playing : Room := { room1 with status := RoomStatus.playing }

/-- Active connected participant row for user 1. -/
def part1 : RoomParticipant :=
  { id := 11, room_id := 1, user_id := 1, status := ParticipantStatus.active,
    connection_status := ConnectionStatus.connected, disconnect_count := 0,
    missed_actions := 0, last_activity := 0, last_ping := none }

/-- Active connected participant row for user 2. -/
def part2 : RoomParticipant := { part1 with id := 12, user_id := 2 }

/-- Active connected participant row for user 3. -/
def part3 : RoomParticipant := { part1 with id := 13, user_id := 3 }

/-- User 3 as an active participant whose connection has timed out. -/
def part3timeout : RoomParticipant :=
  { part3 with connection_status := ConnectionStatus.timeout }

/-- Lobby world: a public waiting room with users 1, 2, 3 active and user 4
outside; user 2 owns the starter card 3. -/
def lobbyDB : DB :=
  { rooms := [room1], participants := [part1, part2, part3], games := [],
    rounds := [], choices := [], votes := [], users := [userA, userB, userC, userD],
    user_cards := [{ user_id := 2, card_type := "starter", card_number := 3 }],
    standard_catalog := [1, 2] }

/-- The lobby world right after `start_game` succeeded. -/
def afterStartGame : DB :=
  match RoomService.start_game lobbyDB 1 1 1 with
  | Except.ok (db, _) => db
  | Except.error _ => emptyDB

/-- A freshly created game row (status `starting`, `current_round = 1`). -/
def game1start : Game :=
  { id := 1, room_id := 1, status := GameStatus.starting, current_round := 1,
    winner_id := none, finished_at := none }

/-- World with a game in status `starting`, before its first round. -/
def startingDB : DB :=
  { lobbyDB with rooms := [room1playing], games := [game1start] }

/-- The round `start_round` creates from `startingDB` at time 1000. -/
def sampleRound1 : GameRound :=
  { id := 10, game_id := 1, round_number := 2, situation_text := "sit",
    duration_seconds := 300, started_at := 1000, selection_deadline := 1300,
    voting_deadline := 1480, finished_at := none, auto_advanced := false }

/-- The sample game during card selection of its first created round. -/
def game1sel : Game :=
  { game1start with status := GameStatus.card_selection, current_round := 2 }

/-- The running round during card selection. -/
def round10 : GameRound := sampleRound1

/-- User 1's choice in the running round. -/
def choice100 : PlayerChoice :=
  { id := 100, round_id := 10, user_id := 1, card_type := "starter",
    card_number := 1, submitted_at := 1100 }

/-- Selection world: game in `card_selection`, users 1 and 2 connected,
user 3 timed out, user 1 already chose. -/
def selectionDB : DB :=
  { lobbyDB with
    rooms := [room1playing]
    games := [game1sel]
    rounds := [round10]
    choices := [choice100]
    participants := [part1, part2, part3timeout] }

/-- The sample game during voting. -/
def game1vote : Game := { game1sel with status := GameStatus.voting }

/-- The running round with a distant voting deadline, for the voting world. -/
def round10v : GameRound := { round10 with voting_deadline := 3000 }

/-- User 2's choice in the voting world. -/
def choice101 : PlayerChoice :=
  { id := 101, round_id := 10, user_id := 2, card_type := "starter",
    card_number := 3, submitted_at := 1150 }

/-- User 3's choice in the voting world. -/
def choice102 : PlayerChoice :=
  { id := 102, round_id := 10, user_id := 3, card_type := "starter",
    card_number := 5, submitted_at := 1250 }

/-- Voting world: game in `voting`, three choices, no votes yet. -/
def votingDB : DB :=
  { lobbyDB with
    rooms := [room1playing]
    games := [game1vote]
    rounds := [round10v]
    choices := [choice100, choice101, choice102] }

/-- The vote `submit_vote` inserts in the voting-world witness. -/
def sampleVote : Vote :=
  { id := 200, round_id := 10, voter_id := 1, choice_id := 101, created_at := 2000 }

/-- The database after the voting-world witness vote. -/
def afterVoteDB : DB :=
  { PlayerManager.update_player_activity votingDB 1 1 2000 with
      votes := (PlayerManager.update_player_activity votingDB 1 1 2000).votes ++ [sampleVote] }

/-- The sample game while round results are displayed. -/
def game1results : Game := { game1sel with status := GameStatus.round_results }

/-- Results world: the deadline handlers must not touch it. -/
def resultsDB : DB :=
  { lobbyDB with rooms := [room1playing], games := [game1results], rounds := [round10v] }

/-- Tie world, first choice: user 1's choice submitted at time 5. -/
def tieChoiceA : PlayerChoice :=
  { id := 100, round_id := 10, user_id := 1, card_type := "starter",
    card_number := 1, submitted_at := 5 }

/-- Tie world, second choice: user 2's choice submitted later, at time 10. -/
def tieChoiceB : PlayerChoice :=
  { id := 101, round_id := 10, user_id := 2, card_type := "starter",
    card_number := 3, submitted_at := 10 }

/-- Tie world: both choices have exactly one vote. -/
def tieDB : DB :=
  { lobbyDB with
    rooms := [room1playing]
    games := [game1vote]
    rounds := [round10v]
    choices := [tieChoiceA, tieChoiceB]
    votes := [{ id := 300, round_id := 10, voter_id := 2, choice_id := 100, created_at := 20 },
              { id := 301, round_id := 10, voter_id := 1, choice_id := 101, created_at := 21 }] }

/-- The game row of the game-end world. -/
def gameEndGame : Game :=
  { game1start with status := GameStatus.round_results, current_round := 4 }

/-- Game-end world: rounds 11, 12 and 13 of game 1. Round 11 is won by
user 1 (2 votes), round 12 by user 3 (2 votes), round 13 by user 4
(2 votes); user 2 wins no round but collects one vote in each round, for
the highest total of 3. -/
def gameEndDB : DB :=
  { rooms := [room1playing],
    participants := [part1, part2, part3, { part1 with id := 14, user_id := 4 }],
    games := [gameEndGame],
    rounds :=
      [{ dummyRound with id := 11, game_id := 1, round_number := 2 },
       { dummyRound with id := 12, game_id := 1, round_number := 3 },
       { dummyRound with id := 13, game_id := 1, round_number := 4 }],
    choices :=
      [{ id := 111, round_id := 11, user_id := 1, card_type := "starter", card_number := 1, submitted_at := 1 },
       { id := 112, round_id := 11, user_id := 2, card_type := "starter", card_number := 3, submitted_at := 2 },
       { id := 121, round_id := 12, user_id := 3, card_type := "starter", card_number := 5, submitted_at := 3 },
       { id := 122, round_id := 12, user_id := 2, card_type := "starter", card_number := 3, submitted_at := 4 },
       { id := 131, round_id := 13, user_id := 4, card_type := "starter", card_number := 7, submitted_at := 5 },
       { id := 132, round_id := 13, user_id := 2, card_type := "starter", card_number := 3, submitted_at := 6 }],
    votes :=
      [{ id := 201, round_id := 11, voter_id := 3, choice_id := 111, created_at := 11 },
       { id := 202, round_id := 11, voter_id := 4, choice_id := 111, created_at := 12 },
       { id := 203, round_id := 11, voter_id := 1, choice_id := 112, created_at := 13 },
       { id := 204, round_id := 12, voter_id := 1, choice_id := 121, created_at := 14 },
       { id := 205, round_id := 12, voter_id := 4, choice_id := 121, created_at := 15 },
       { id := 206, round_id := 12, voter_id := 3, choice_id := 122, created_at := 16 },
       { id := 207, round_id := 13, voter_id := 1, choice_id := 131, created_at := 17 },
       { id := 208, round_id := 13, voter_id := 3, choice_id := 131, created_at := 18 },
       { id := 209, round_id := 13, voter_id := 4, choice_id := 132, created_at := 19 }],
    users := [userA, userB, userC, userD],
    user_cards := [],
    standard_catalog := [1, 2] }

/-- Presence world: user 7 has 2 prior disconnects, user 8 has 1 prior
missed action. -/
def presenceDB : DB :=
  { emptyDB with
    rooms := [room1]
    participants :=
      [{ part1 with id := 21, user_id := 7, disconnect_count := 2 },
       { part1 with id := 22, user_id := 8, missed_actions := 1 }] }

/-- The pick sequence under which `generate_room_code` emits A1B2C3. -/
def samplePicks : Fin 6 → Fin 36 :=
  fun i => List.getD [(0 : Fin 36), 27, 1, 28, 2, 29] i.val 0

/-- Second component of a successful operation result, with a fallback. -/
def okSnd {β : Type} (dflt : β) : Except Err (DB × β) → β
  | Except.ok (_, b) => b
  | Except.error _ => dflt

/-- A placeholder choice, the fallback of `okSnd` in witnesses. -/
def dummyChoice : PlayerChoice :=
  { id := 0, round_id := 0, user_id := 0, card_type := "", card_number := 0,
    submitted_at := 0 }

/-- Constructor shorthand for a vote row. -/
def mkVote (vid round_id voter_id choice_id : Nat) (now : Int) : Vote :=
  { id := vid, round_id := round_id, voter_id := voter_id,
    choice_id := choice_id, created_at := now }

/-- Decision component of a `mark_player_disconnected` result. -/
def markDecisionOf :
    Except Err (DB × PlayerManager.DisconnectDecision) → PlayerManager.DisconnectDecision
  | Except.ok (_, d) => d
  | Except.error _ =>
    { user_id := 0, excluded := false, disconnect_count := 0,
      status := ParticipantStatus.active, can_rejoin := true }

/-- A placeholder aggregation result, the fallback of `okSnd` in witnesses. -/
def dummyRoundResult : GameService.RoundResult := { winner := none, max_votes := -1 }

/-! Helper lemmas shared by the claim theorems. -/

/-- A guarded map touches exactly the rows a key-search finds: searching the
mapped list equals mapping the search result, provided the update preserves
the key. This is the SQL fact that `UPDATE ... WHERE id = k` commutes with
`SELECT ... WHERE id = k`. -/
theorem find?_map_update {α : Type} (key : α → Nat) (k : Nat) (f : α → α)
    (hf : ∀ a, key (f a) = key a) (l : List α) :
    (l.map (fun a => if key a == k then f a else a)).find? (fun a => key a == k) =
      (l.find? (fun a => key a == k)).map f := by
  induction l with
  | nil => rfl
  | cons a t ih =>
    simp only [List.map_cons]
    cases h : (key a == k) with
    | true =>
      have hfa : (key (f a) == k) = true := by rw [hf]; exact h
      rw [if_pos rfl,
        @List.find?_cons_of_pos _ (fun x => key x == k) (f a) _ hfa,
        @List.find?_cons_of_pos _ (fun x => key x == k) a t h]
      rfl
    | false =>
      rw [if_neg (by simp),
        @List.find?_cons_of_neg _ (fun x => key x == k) a _ (by simp [h]),
        @List.find?_cons_of_neg _ (fun x => key x == k) a t (by simp [h])]
      exact ih

/-- `findGame` after `updateGame` with the same key. -/
theorem findGame_updateGame (db : DB) (gid : Nat) (f : Game → Game)
    (hf : ∀ g, (f g).id = g.id) :
    (db.updateGame gid f).findGame gid = (db.findGame gid).map f := by
  unfold DB.findGame DB.updateGame
  exact find?_map_update (fun g => g.id) gid f hf db.games

/-- `findRoom` after `updateRoom` with the same key. -/
theorem findRoom_updateRoom (db : DB) (rid : Nat) (f : Room → Room)
    (hf : ∀ r, (f r).id = r.id) :
    (db.updateRoom rid f).findRoom rid = (db.findRoom rid).map f := by
  unfold DB.findRoom DB.updateRoom
  exact find?_map_update (fun r => r.id) rid f hf db.rooms

/-- `findUser` after `updateUser` with the same key. -/
theorem findUser_updateUser (db : DB) (uid : Nat) (f : User → User)
    (hf : ∀ u, (f u).id = u.id) :
    (db.updateUser uid f).findUser uid = (db.findUser uid).map f := by
  unfold DB.findUser DB.updateUser
  exact find?_map_update (fun u => u.id) uid f hf db.users

/-- `findRound` after `updateRound` with the same key. -/
theorem findRound_updateRound (db : DB) (rid : Nat) (f : GameRound → GameRound)
    (hf : ∀ r, (f r).id = r.id) :
    (db.updateRound rid f).findRound rid = (db.findRound rid).map f := by
  unfold DB.findRound DB.updateRound
  exact find?_map_update (fun r => r.id) rid f hf db.rounds

/-- The winner fold never moves off an accumulator whose count dominates the
remaining rows (the loop only replaces on a strictly greater count). -/
theorem pickWinner_fold_const (db : DB) (w : Option PlayerChoice) (c : Int) :
    ∀ l : List PlayerChoice, (∀ y ∈ l, (db.voteCount y.id : Int) ≤ c) →
      l.foldl (GameService.pickWinnerStep db) { winner := w, max_votes := c } =
        { winner := w, max_votes := c } := by
  intro l
  induction l with
  | nil => intro _; rfl
  | cons a t ih =>
    intro h
    have ha := h a (List.mem_cons_self a t)
    have ht : ∀ y ∈ t, (db.voteCount y.id : Int) ≤ c :=
      fun y hy => h y (List.mem_cons_of_mem a hy)
    simp only [List.foldl_cons]
    rw [show GameService.pickWinnerStep db { winner := w, max_votes := c } a =
        { winner := w, max_votes := c } by
      unfold GameService.pickWinnerStep
      rw [if_neg (show ¬((db.voteCount a.id : Int) > c) by omega)]]
    exact ih ht

/-- On a nonempty row list whose head has a maximal vote count, the winner
fold returns the head. -/
theorem pickWinner_head (db : DB) (x : PlayerChoice) (l : List PlayerChoice)
    (h : ∀ y ∈ l, db.voteCount y.id ≤ db.voteCount x.id) :
    GameService.pickWinner db (x :: l) =
      { winner := some x, max_votes := (db.voteCount x.id : Int) } := by
  unfold GameService.pickWinner
  simp only [List.foldl_cons]
  rw [show GameService.pickWinnerStep db { winner := none, max_votes := -1 } x =
      { winner := some x, max_votes := (db.voteCount x.id : Int) } by
    unfold GameService.pickWinnerStep
    rw [if_pos (show (db.voteCount x.id : Int) > -1 by omega)]]
  exact pickWinner_fold_const db (some x) _ l (fun y hy => by exact_mod_cast h y hy)

/-- ASCII uppercasing fixes uppercase letters and digits. -/
theorem pyUpperChar_eq_self (c : Char) (h : isUpperOrDigit c = true) :
    pyUpperChar c = c := by
  unfold isUpperOrDigit at h
  unfold pyUpperChar
  rw [if_neg]
  simp only [Bool.or_eq_true, Bool.and_eq_true, decide_eq_true_eq] at h
  omega

/-- Every character of the join-code alphabet is an uppercase letter or a
digit. -/
theorem roomCodeAlphabet_upperOrDigit : ∀ c ∈ roomCodeAlphabet, isUpperOrDigit c = true := by
  decide

/-- Generated join codes are fixed points of `str.upper()`. -/
theorem pyUpper_generate_room_code (picks : Fin 6 → Fin 36) :
    pyUpper (Room.generate_room_code picks) = Room.generate_room_code picks := by
  unfold pyUpper Room.generate_room_code
  congr 1
  rw [List.map_map]
  apply List.map_congr_left
  intro i _
  apply pyUpperChar_eq_self
  apply roomCodeAlphabet_upperOrDigit
  exact roomCodeAlphabet.get_mem _ _

/-- `getD` returns a list element or the default. -/
theorem getD_mem_or_eq (l : List Nat) (n : Nat) (d : Nat) :
    l.getD n d ∈ l ∨ l.getD n d = d := by
  induction l generalizing n with
  | nil => right; rfl
  | cons a t ih =>
    cases n with
    | zero => left; exact List.mem_cons_self a t
    | succ m =>
      rcases ih m with h | h
      · left; exact List.mem_cons_of_mem a (by simpa using h)
      · right; simpa using h

/-- A card in the available list is in the catalogue and not yet owned. -/
theorem available_mem (db : DB) (uid n : Nat)
    (h : n ∈ GameService.available_standard_cards_for_user db uid) :
    n ∈ db.standard_catalog ∧
      (db.user_cards.find? (fun c => c.user_id == uid &&
        c.card_type == "standard" && c.card_number == n)).isSome = false := by
  unfold GameService.available_standard_cards_for_user at h
  have h2 := List.mem_filter.mp h
  refine ⟨h2.1, ?_⟩
  have := h2.2
  simpa using this

/-- `award_winner_card` only appends to `user_cards`. -/
theorem award_winner_card_fields (db : DB) (uid pick : Nat) :
    (GameService.award_winner_card db uid pick).games = db.games ∧
    (GameService.award_winner_card db uid pick).rooms = db.rooms ∧
    (GameService.award_winner_card db uid pick).users = db.users ∧
    (GameService.award_winner_card db uid pick).standard_catalog = db.standard_catalog := by
  unfold GameService.award_winner_card
  split <;> exact ⟨rfl, rfl, rfl, rfl⟩

/-- `award_winner_card` grants a card per the claim: nothing when nothing is
available, otherwise exactly one available card. -/
theorem award_winner_card_ok (db : DB) (uid pick : Nat) :
    cardAwardOk db (GameService.award_winner_card db uid pick) uid := by
  unfold cardAwardOk GameService.award_winner_card
  split
  case _ heq => left; exact ⟨rfl, heq⟩
  case _ a rest heq =>
    right
    refine ⟨(a :: rest).getD (pick % (rest.length + 1)) a, ?_, rfl⟩
    rw [heq]
    rcases getD_mem_or_eq (a :: rest) (pick % (rest.length + 1)) a with h | h
    · exact h
    · rw [h]; exact List.mem_cons_self a rest

/-- `award_game_victory_points` only touches `users`. -/
theorem award_game_victory_points_fields (db : DB) (uid : Nat) :
    (GameService.award_game_victory_points db uid).games = db.games ∧
    (GameService.award_game_victory_points db uid).rooms = db.rooms ∧
    (GameService.award_game_victory_points db uid).user_cards = db.user_cards := by
  unfold GameService.award_game_victory_points
  split <;> exact ⟨rfl, rfl, rfl⟩

/-- `award_game_victory_points` adds exactly 5 rating to the found user. -/
theorem award_game_victory_points_rating (db : DB) (uid : Nat) (u : User)
    (hu : db.findUser uid = some u) :
    (GameService.award_game_victory_points db uid).findUser uid =
      some { u with rating := u.rating + 5 } := by
  unfold GameService.award_game_victory_points
  rw [hu]
  rw [findUser_updateUser db uid (fun u => { u with rating := u.rating + 5 }) (fun _ => rfl), hu]
  rfl

/-- `award_round_points` adds exactly 1 rating to the found user. -/
theorem award_round_points_rating (db : DB) (uid : Nat) (u : User)
    (hu : db.findUser uid = some u) :
    (GameService.award_round_points db uid).findUser uid =
      some { u with rating := u.rating + 1 } := by
  unfold GameService.award_round_points
  rw [hu]
  rw [findUser_updateUser db uid (fun u => { u with rating := u.rating + 1 }) (fun _ => rfl), hu]
  rfl

/-! Claim theorems. -/

/-- C7: a selection-deadline timer firing after the game has left
`card_selection` (and a voting-deadline timer firing after the game has
left `voting`) changes no persisted data: the handler returns the database
untouched. -/
theorem C7_timer_noop (db : DB) (round_id : Nat) (now : Int) (pick : Nat)
    (rnd : GameRound) (game : Game)
    (hr : db.findRound round_id = some rnd)
    (hg : db.findGame rnd.game_id = some game) :
    (game.status ≠ GameStatus.card_selection →
       GameService.handle_selection_timeout db round_id now pick = db) ∧
    (game.status ≠ GameStatus.voting →
       GameService.handle_voting_timeout db round_id now = db) := by
  constructor
  · intro h
    unfold GameService.handle_selection_timeout
    rw [hr]
    dsimp only
    rw [hg]
    dsimp only
    rw [if_pos h]
  · intro h
    unfold GameService.handle_voting_timeout
    rw [hr]
    dsimp only
    rw [hg]
    dsimp only
    rw [if_pos h]

/-- C7 witness: in the results-display world both deadline handlers are
no-ops. -/
theorem C7_timer_noop_witness :
    GameService.handle_selection_timeout resultsDB 10 5000 0 = resultsDB ∧
    GameService.handle_voting_timeout resultsDB 10 5000 = resultsDB :=
  ⟨(C7_timer_noop resultsDB 10 5000 0 round10v game1results rfl rfl).1 (by decide),
   (C7_timer_noop resultsDB 10 5000 0 round10v game1results rfl rfl).2 (by decide)⟩

/-- C8 counterexample: the claim says membership becomes `left` exactly when
the incremented counter EXCEEDS the threshold, but a participant with 2
prior disconnects is excluded on the 3rd disconnect (counter 3, which does
not exceed 3), and one prior missed action leads to exclusion on the 2nd
miss (counter 2, which does not exceed 2). -/
theorem C8_thresholds_counterexample :
    (markDecisionOf (PlayerManager.mark_player_disconnected presenceDB 7 1 100)).excluded = true ∧
    (markDecisionOf (PlayerManager.mark_player_disconnected presenceDB 7 1 100)).disconnect_count = 3 ∧
    ¬((markDecisionOf (PlayerManager.mark_player_disconnected presenceDB 7 1 100)).disconnect_count > 3) ∧
    (PlayerManager.handle_missed_action presenceDB 8 1 100).2.excluded = true ∧
    (PlayerManager.handle_missed_action presenceDB 8 1 100).2.missed_actions = 2 ∧
    ¬((PlayerManager.handle_missed_action presenceDB 8 1 100).2.missed_actions > 2) := by
  decide

/-- C8 amended: `mark_player_disconnected` and `handle_missed_action`
exclude a participant exactly when the incremented counter REACHES the
threshold (3 disconnects, 2 missed actions); below it the membership is not
set to `left` (it becomes `disconnected`, respectively stays unchanged),
and the returned decision's `excluded` flag reports the outcome. -/
theorem C8_exclusion_thresholds (db : DB) (user_id room_id : Nat) (now : Int)
    (p : RoomParticipant)
    (hp : db.participants.find?
      (fun q => q.user_id == user_id && q.room_id == room_id) = some p) :
    PlayerManager.mark_player_disconnected db user_id room_id now =
      Except.ok (db.updateParticipantById p.id (fun q =>
        { q with connection_status := ConnectionStatus.disconnected,
                 status := if p.disconnect_count + 1 ≥ PlayerManager.MAX_DISCONNECT_COUNT
                           then ParticipantStatus.left else ParticipantStatus.disconnected,
                 disconnect_count := p.disconnect_count + 1,
                 last_activity := now }),
        { user_id := user_id,
          excluded := decide (p.disconnect_count + 1 ≥ PlayerManager.MAX_DISCONNECT_COUNT),
          disconnect_count := p.disconnect_count + 1,
          status := if p.disconnect_count + 1 ≥ PlayerManager.MAX_DISCONNECT_COUNT
                    then ParticipantStatus.left else ParticipantStatus.disconnected,
          can_rejoin := !decide (p.disconnect_count + 1 ≥ PlayerManager.MAX_DISCONNECT_COUNT) }) ∧
    PlayerManager.handle_missed_action db user_id room_id now =
      (db.updateParticipantById p.id (fun q =>
        { q with missed_actions := p.missed_actions + 1,
                 status := if p.missed_actions + 1 ≥ PlayerManager.MAX_MISSED_ACTIONS
                           then ParticipantStatus.left else p.status,
                 connection_status :=
                   if decide (p.missed_actions + 1 ≥ PlayerManager.MAX_MISSED_ACTIONS)
                   then ConnectionStatus.disconnected else ConnectionStatus.timeout,
                 last_activity := now }),
       { user_id := user_id,
         excluded := decide (p.missed_actions + 1 ≥ PlayerManager.MAX_MISSED_ACTIONS),
         missed_actions := p.missed_actions + 1,
         status := some (if p.missed_actions + 1 ≥ PlayerManager.MAX_MISSED_ACTIONS
                         then ParticipantStatus.left else p.status) }) := by
  unfold PlayerManager.mark_player_disconnected PlayerManager.handle_missed_action
  rw [hp]
  exact ⟨rfl, rfl⟩

/-- C8 witness: user 7 (2 prior disconnects) is excluded by the 3rd
disconnect; user 8 (1 prior missed action) is excluded by the 2nd miss. -/
theorem C8_exclusion_thresholds_witness :
    PlayerManager.mark_player_disconnected presenceDB 7 1 100 =
      Except.ok (presenceDB.updateParticipantById 21 (fun q =>
        { q with connection_status := ConnectionStatus.disconnected,
                 status := ParticipantStatus.left,
                 disconnect_count := 3, last_activity := 100 }),
        { user_id := 7, excluded := true, disconnect_count := 3,
          status := ParticipantStatus.left, can_rejoin := false }) ∧
    PlayerManager.handle_missed_action presenceDB 8 1 100 =
      (presenceDB.updateParticipantById 22 (fun q =>
        { q with missed_actions := 2, status := ParticipantStatus.left,
                 connection_status := ConnectionStatus.disconnected,
                 last_activity := 100 }),
       { user_id := 8, excluded := true, missed_actions := 2,
         status := some ParticipantStatus.left }) :=
  ⟨(C8_exclusion_thresholds presenceDB 7 1 100
      { part1 with id := 21, user_id := 7, disconnect_count := 2 } rfl).1,
   (C8_exclusion_thresholds presenceDB 8 1 100
      { part1 with id := 22, user_id := 8, missed_actions := 1 } rfl).2⟩

/-- C9 counterexample: a repeated `join_room` by an already-active
participant does not succeed idempotently; it is rejected with a
`ValidationError`. -/
theorem C9_idempotent_counterexample :
    RoomService.join_room lobbyDB 1 1 99 0 =
      Except.error (Err.validation "you are already in this room") ∧
    isOk (RoomService.join_room lobbyDB 1 1 99 0) = false := by
  exact ⟨rfl, rfl⟩

/-- C9 amended: `join_room` refuses private rooms with a `PermissionError`,
requires waiting status and free capacity, REJECTS an already-active
participant with a `ValidationError` (it is not idempotent), and otherwise
inserts exactly one active participant row. -/
theorem C9_join_room (db : DB) (room_id user_id new_pid : Nat) (now : Int)
    (user : User) (room : Room)
    (hu : db.findUser user_id = some user)
    (hpc : user.profile_complete = true)
    (hr : db.findRoom room_id = some room) :
    (room.is_public = false →
       RoomService.join_room db room_id user_id new_pid now =
         Except.error (Err.permission "this is a private room, use the room code")) ∧
    (room.is_public = true → room.status ≠ RoomStatus.waiting →
       RoomService.join_room db room_id user_id new_pid now =
         Except.error (Err.validation "room is not accepting new players")) ∧
    (room.is_public = true → room.status = RoomStatus.waiting →
       db.isActiveParticipant room_id user_id = true →
       RoomService.join_room db room_id user_id new_pid now =
         Except.error (Err.validation "you are already in this room")) ∧
    (room.is_public = true → room.status = RoomStatus.waiting →
       db.isActiveParticipant room_id user_id = false →
       RoomService.get_active_players_count db room_id ≥ room.max_players →
       RoomService.join_room db room_id user_id new_pid now =
         Except.error (Err.validation "room is full")) ∧
    (room.is_public = true → room.status = RoomStatus.waiting →
       db.isActiveParticipant room_id user_id = false →
       RoomService.get_active_players_count db room_id < room.max_players →
       RoomService.join_room db room_id user_id new_pid now =
         Except.ok { db with participants := db.participants ++
           [{ id := new_pid, room_id := room_id, user_id := user_id,
              status := ParticipantStatus.active,
              connection_status := ConnectionStatus.connected,
              disconnect_count := 0, missed_actions := 0,
              last_activity := now, last_ping := none }] }) := by
  unfold RoomService.join_room RoomService.join_room_internal
  rw [hu, hr]
  refine ⟨?_, ?_, ?_, ?_, ?_⟩
  · intro hpub
    simp [hpc, hpub]
  · intro hpub hst
    simp [hpc, hpub, hst]
  · intro hpub hst hact
    simp [hpc, hpub, hst, hact]
  · intro hpub hst hact hcap
    simp [hpc, hpub, hst, hact, Nat.not_lt.mpr hcap, hcap]
  · intro hpub hst hact hcap
    simp [hpc, hpub, hst, hact, Nat.not_le.mpr hcap]

/-- C9 witness: user 4, not yet in the sample public waiting room, joins and
exactly one active participant row is appended. -/
theorem C9_join_room_witness :
    RoomService.join_room lobbyDB 1 4 44 0 =
      Except.ok { lobbyDB with participants := lobbyDB.participants ++
        [{ id := 44, room_id := 1, user_id := 4,
           status := ParticipantStatus.active,
           connection_status := ConnectionStatus.connected,
           disconnect_count := 0, missed_actions := 0,
           last_activity := 0, last_ping := none }] } :=
  (C9_join_room lobbyDB 1 4 44 0 userD room1 rfl rfl rfl).2.2.2.2
    rfl rfl (by decide) (by decide)

/-- C10: joining by code is case-insensitive: for any room code produced by
`generate_room_code` (uppercase letters and digits only), `join_room_by_code`
behaves identically on any case variant whose uppercasing is that code,
because it uppercases its input before the lookup. -/
theorem C10_join_by_code_case_insensitive (db : DB) (picks : Fin 6 → Fin 36)
    (v : String) (user_id new_pid : Nat) (now : Int)
    (hv : pyUpper v = Room.generate_room_code picks) :
    RoomService.join_room_by_code db v user_id new_pid now =
      RoomService.join_room_by_code db (Room.generate_room_code picks) user_id new_pid now := by
  unfold RoomService.join_room_by_code
  rw [hv, pyUpper_generate_room_code]

/-- C10 witness: joining with a1b2c3 equals joining with the generated code
A1B2C3. -/
theorem C10_join_by_code_witness :
    RoomService.join_room_by_code lobbyDB "a1b2c3" 4 44 0 =
      RoomService.join_room_by_code lobbyDB (Room.generate_room_code samplePicks) 4 44 0 :=
  C10_join_by_code_case_insensitive lobbyDB samplePicks "a1b2c3" 4 44 0 (by decide)

/-- C5 counterexample: a successful `submit_card_choice` that satisfies the
completion condition (choices at least the connected count, which is at
least 2) leaves the game in `card_selection`; no transition to voting
happens. -/
theorem C5_no_auto_voting_counterexample :
    isOk (GameService.submit_card_choice selectionDB 10 2 "starter" 3 1200 101) = true ∧
    ((dbOf (GameService.submit_card_choice selectionDB 10 2 "starter" 3 1200 101)).roundChoices 10).length ≥
      ((dbOf (GameService.submit_card_choice selectionDB 10 2 "starter" 3 1200 101)).connectedParticipants 1).length ∧
    ((dbOf (GameService.submit_card_choice selectionDB 10 2 "starter" 3 1200 101)).connectedParticipants 1).length ≥ 2 ∧
    (dbOf (GameService.submit_card_choice selectionDB 10 2 "starter" 3 1200 101)).findGame 1 =
      some game1sel ∧
    game1sel.status = GameStatus.card_selection ∧
    game1sel.status ≠ GameStatus.voting := by
  decide

/-- C5 amended: a successful `submit_card_choice` only records the choice
(and touches presence); it never changes the game row, so no completion
check runs and no transition to voting happens. The completion check
`_check_all_players_chose_cards`, which no caller of `submit_card_choice`
invokes, would start voting exactly under the claimed condition. -/
theorem C5_no_auto_voting (db : DB) (round_id user_id : Nat) (card_type : String)
    (card_number : Nat) (now : Int) (cid : Nat) (db2 : DB) (c : PlayerChoice)
    (h : GameService.submit_card_choice db round_id user_id card_type card_number now cid =
      Except.ok (db2, c)) :
    db2.games = db.games ∧
    db2.votes = db.votes ∧
    db2.choices = db.choices ++ [c] ∧
    c.round_id = round_id ∧ c.user_id = user_id ∧ c.submitted_at = now ∧
    (∃ rnd game, db.findRound round_id = some rnd ∧
       db.findGame rnd.game_id = some game ∧
       game.status = GameStatus.card_selection) ∧
    (∀ db0 gid rid game, db0.findGame gid = some game →
       (((db0.roundChoices rid).length ≥ (db0.connectedParticipants game.room_id).length ∧
          (db0.connectedParticipants game.room_id).length > 1) →
          GameService.check_all_players_chose_cards db0 gid rid =
            GameService.start_voting db0 rid) ∧
       (¬((db0.roundChoices rid).length ≥ (db0.connectedParticipants game.room_id).length ∧
          (db0.connectedParticipants game.room_id).length > 1) →
          GameService.check_all_players_chose_cards db0 gid rid = Except.ok db0)) := by
  have hcheck : ∀ db0 gid rid game, db0.findGame gid = some game →
      (((db0.roundChoices rid).length ≥ (db0.connectedParticipants game.room_id).length ∧
         (db0.connectedParticipants game.room_id).length > 1) →
         GameService.check_all_players_chose_cards db0 gid rid =
           GameService.start_voting db0 rid) ∧
      (¬((db0.roundChoices rid).length ≥ (db0.connectedParticipants game.room_id).length ∧
         (db0.connectedParticipants game.room_id).length > 1) →
         GameService.check_all_players_chose_cards db0 gid rid = Except.ok db0) := by
    intro db0 gid rid game hgm
    constructor
    · intro hcond
      unfold GameService.check_all_players_chose_cards
      rw [hgm]
      dsimp only
      rw [if_pos hcond]
    · intro hcond
      unfold GameService.check_all_players_chose_cards
      rw [hgm]
      dsimp only
      rw [if_neg hcond]
  unfold GameService.submit_card_choice at h
  cases hrnd : db.findRound round_id with
  | none => rw [hrnd] at h; exact Except.noConfusion h
  | some rnd =>
    rw [hrnd] at h
    dsimp only at h
    cases hgm : db.findGame rnd.game_id with
    | none => rw [hgm] at h; exact Except.noConfusion h
    | some game =>
      rw [hgm] at h
      dsimp only at h
      by_cases h1 : game.status ≠ GameStatus.card_selection
      · rw [if_pos h1] at h; exact Except.noConfusion h
      · rw [if_neg h1] at h
        by_cases h2 : now > rnd.selection_deadline
        · rw [if_pos h2] at h; exact Except.noConfusion h
        · rw [if_neg h2] at h
          by_cases h3 : (!(db.isActiveParticipant game.room_id user_id)) = true
          · rw [if_pos h3] at h; exact Except.noConfusion h
          · rw [if_neg h3] at h
            by_cases h4 : DB.hasChoice
                (PlayerManager.update_player_activity db user_id game.room_id now)
                round_id user_id = true
            · rw [if_pos h4] at h; exact Except.noConfusion h
            · rw [if_neg h4] at h
              by_cases h5 : (!(DB.ownsCard
                  (PlayerManager.update_player_activity db user_id game.room_id now)
                  user_id card_type card_number)) = true
              · rw [if_pos h5] at h; exact Except.noConfusion h
              · rw [if_neg h5] at h
                simp only [Except.ok.injEq, Prod.mk.injEq] at h
                obtain ⟨hdb, hc⟩ := h
                subst hdb
                subst hc
                refine ⟨rfl, rfl, rfl, rfl, rfl, rfl, ⟨rnd, game, rfl, hgm, not_not.mp h1⟩, hcheck⟩

/-- C5 witness: the successful submission in the selection world records
exactly one new choice and leaves the game table unchanged. -/
theorem C5_no_auto_voting_witness :
    (dbOf (GameService.submit_card_choice selectionDB 10 2 "starter" 3 1200 101)).games =
      selectionDB.games ∧
    (dbOf (GameService.submit_card_choice selectionDB 10 2 "starter" 3 1200 101)).choices =
      selectionDB.choices ++
        [okSnd dummyChoice (GameService.submit_card_choice selectionDB 10 2 "starter" 3 1200 101)] :=
  ⟨(C5_no_auto_voting selectionDB 10 2 "starter" 3 1200 101 _ _ rfl).1,
   (C5_no_auto_voting selectionDB 10 2 "starter" 3 1200 101 _ _ rfl).2.2.1⟩

/-- C6: `submit_vote` persists a vote exactly when the game is in `voting`,
the deadline has not passed, the voter is an active participant without a
prior vote in the round, and the chosen choice exists in the round and
belongs to another user; otherwise it fails with a validation or
permission error (and, the transaction rolling back, records nothing).
Consequently the no-self-vote and one-vote-per-voter invariants are
preserved. -/
theorem C6_submit_vote (db : DB) (round_id user_id choice_id : Nat) (now : Int)
    (vid : Nat) (rnd : GameRound) (game : Game)
    (hr : db.findRound round_id = some rnd)
    (hg : db.findGame rnd.game_id = some game) :
    (submitVoteOk db game rnd round_id user_id choice_id now →
       GameService.submit_vote db round_id user_id choice_id now vid =
         Except.ok ({ PlayerManager.update_player_activity db user_id game.room_id now with
             votes := db.votes ++ [mkVote vid round_id user_id choice_id now] },
           mkVote vid round_id user_id choice_id now)) ∧
    (¬ submitVoteOk db game rnd round_id user_id choice_id now →
       isValidationOrPermission
         (GameService.submit_vote db round_id user_id choice_id now vid) = true) ∧
    (∀ db2 v, GameService.submit_vote db round_id user_id choice_id now vid =
        Except.ok (db2, v) →
       noSelfVotes db → oneVotePerVoter db → noSelfVotes db2 ∧ oneVotePerVoter db2) := by
  have hok : submitVoteOk db game rnd round_id user_id choice_id now →
      GameService.submit_vote db round_id user_id choice_id now vid =
        Except.ok ({ PlayerManager.update_player_activity db user_id game.room_id now with
            votes := db.votes ++ [mkVote vid round_id user_id choice_id now] },
          mkVote vid round_id user_id choice_id now) := by
    rintro ⟨hst, hdl, hact, hnv, c, hc, hcr, hcu⟩
    unfold GameService.submit_vote
    rw [hr]
    dsimp only
    rw [hg]
    dsimp only
    rw [if_neg (by simp [hst])]
    rw [if_neg (not_lt.mpr hdl)]
    rw [if_neg (by simp [hact])]
    rw [show DB.hasVoted
        (PlayerManager.update_player_activity db user_id game.room_id now)
        round_id user_id = false from hnv]
    rw [if_neg (by simp)]
    rw [show DB.findChoice
        (PlayerManager.update_player_activity db user_id game.room_id now)
        choice_id = some c from hc]
    dsimp only
    rw [if_neg (by simp [hcr])]
    rw [if_neg (by simp [hcu])]
    rfl
  have herr : ¬ submitVoteOk db game rnd round_id user_id choice_id now →
      isValidationOrPermission
        (GameService.submit_vote db round_id user_id choice_id now vid) = true := by
    intro hnot
    unfold GameService.submit_vote
    rw [hr]
    dsimp only
    rw [hg]
    dsimp only
    by_cases h1 : game.status ≠ GameStatus.voting
    · rw [if_pos h1]; rfl
    · rw [if_neg h1]
      by_cases h2 : now > rnd.voting_deadline
      · rw [if_pos h2]; rfl
      · rw [if_neg h2]
        by_cases h3 : (!(db.isActiveParticipant game.room_id user_id)) = true
        · rw [if_pos h3]; rfl
        · rw [if_neg h3]
          by_cases h4 : DB.hasVoted
              (PlayerManager.update_player_activity db user_id game.room_id now)
              round_id user_id = true
          · rw [if_pos h4]; rfl
          · rw [if_neg h4]
            cases hc : DB.findChoice
                (PlayerManager.update_player_activity db user_id game.room_id now)
                choice_id with
            | none => rfl
            | some c =>
              dsimp only
              by_cases h5 : c.round_id ≠ round_id
              · rw [if_pos h5]; rfl
              · rw [if_neg h5]
                by_cases h6 : (c.user_id == user_id) = true
                · rw [if_pos h6]; rfl
                · exfalso
                  apply hnot
                  refine ⟨not_not.mp h1, not_lt.mp h2, ?_, ?_, c, hc, not_not.mp h5, ?_⟩
                  · simpa using h3
                  · simpa using h4
                  · simpa using h6
  refine ⟨hok, herr, ?_⟩
  intro db2 v hres hns hone
  by_cases hvd : submitVoteOk db game rnd round_id user_id choice_id now
  · obtain ⟨hst, hdl, hact, hnv, c, hc, hcr, hcu⟩ := hvd
    have := hok ⟨hst, hdl, hact, hnv, c, hc, hcr, hcu⟩
    rw [this] at hres
    simp only [Except.ok.injEq, Prod.mk.injEq] at hres
    obtain ⟨hdb, hv⟩ := hres
    subst hdb
    subst hv
    constructor
    · intro w hw c2 hc2
      rcases List.mem_append.mp hw with hold | hnew
      · exact hns w hold c2 hc2
      · have hw2 : w = mkVote vid round_id user_id choice_id now := by
          simpa [mkVote] using hnew
        subst hw2
        have hc2' : db.findChoice choice_id = some c2 := hc2
        rw [hc] at hc2'
        have : c = c2 := by simpa using hc2'
        subst this
        simpa using hcu
    · refine List.pairwise_append.mpr ⟨hone, by simp, ?_⟩
      intro a ha b hb
      have hb2 : b = mkVote vid round_id user_id choice_id now := by
        simpa [mkVote] using hb
      subst hb2
      have hfind : db.votes.find?
          (fun v => v.round_id == round_id && v.voter_id == user_id) = none := by
        have : (db.votes.find?
            (fun v => v.round_id == round_id && v.voter_id == user_id)).isSome = false := hnv
        cases hcase : db.votes.find?
            (fun v => v.round_id == round_id && v.voter_id == user_id) with
        | none => rfl
        | some x => rw [hcase] at this; exact absurd this (by simp)
      have hnotp := List.find?_eq_none.mp hfind a ha
      intro hcon
      apply hnotp
      simp only [Bool.and_eq_true, beq_iff_eq]
      exact ⟨hcon.1, hcon.2⟩
  · have := herr hvd
    rw [hres] at this
    exact absurd this (by simp [isValidationOrPermission])

/-- C6 witness: in the voting world, user 1's vote for user 2's choice is
persisted as exactly one appended vote row. -/
theorem C6_submit_vote_witness :
    GameService.submit_vote votingDB 10 1 101 2000 200 =
      Except.ok ({ PlayerManager.update_player_activity votingDB 1 1 2000 with
          votes := votingDB.votes ++ [sampleVote] }, sampleVote) :=
  (C6_submit_vote votingDB 10 1 101 2000 200 round10v game1vote rfl rfl).1
    ⟨rfl, by decide, by decide, by decide, choice101, rfl, rfl, by decide⟩

/-- `updateGame` rewrites the row a successful `findGame` saw. -/
theorem findGame_updateGame_of (db : DB) (gid : Nat) (f : Game → Game) (g : Game)
    (hf : ∀ g, (f g).id = g.id) (hg : db.findGame gid = some g) :
    (db.updateGame gid f).findGame gid = some (f g) := by
  rw [findGame_updateGame db gid f hf, hg]
  rfl

/-- Databases with the same games table agree on `findGame`. -/
theorem findGame_ext (db1 db2 : DB) (h : db1.games = db2.games) (gid : Nat) :
    db1.findGame gid = db2.findGame gid := by
  unfold DB.findGame
  rw [h]

/-- Databases with the same rounds table agree on `findRound`. -/
theorem findRound_ext (db1 db2 : DB) (h : db1.rounds = db2.rounds) (rid : Nat) :
    db1.findRound rid = db2.findRound rid := by
  unfold DB.findRound
  rw [h]

/-- Databases with the same rooms table agree on `findRoom`. -/
theorem findRoom_ext (db1 db2 : DB) (h : db1.rooms = db2.rooms) (rid : Nat) :
    db1.findRoom rid = db2.findRoom rid := by
  unfold DB.findRoom
  rw [h]

/-- Databases with the same users table agree on `findUser`. -/
theorem findUser_ext (db1 db2 : DB) (h : db1.users = db2.users) (uid : Nat) :
    db1.findUser uid = db2.findUser uid := by
  unfold DB.findUser
  rw [h]

/-- `updateRound` leaves the games table alone. -/
theorem findGame_updateRound (db : DB) (rid : Nat) (f : GameRound → GameRound) (gid : Nat) :
    (db.updateRound rid f).findGame gid = db.findGame gid := rfl

/-- `updateGame` leaves the rounds table alone. -/
theorem findRound_updateGame (db : DB) (gid : Nat) (f : Game → Game) (rid : Nat) :
    (db.updateGame gid f).findRound rid = db.findRound rid := rfl

/-- `updateGame` leaves the users table alone. -/
theorem findUser_updateGame (db : DB) (gid : Nat) (f : Game → Game) (uid : Nat) :
    (db.updateGame gid f).findUser uid = db.findUser uid := rfl

/-- `updateRound` leaves the users table alone. -/
theorem findUser_updateRound (db : DB) (rid : Nat) (f : GameRound → GameRound) (uid : Nat) :
    (db.updateRound rid f).findUser uid = db.findUser uid := rfl

/-- `updateRoom` leaves the games table alone. -/
theorem findGame_updateRoom (db : DB) (rid : Nat) (f : Room → Room) (gid : Nat) :
    (db.updateRoom rid f).findGame gid = db.findGame gid := rfl

/-- `updateGame` leaves the rooms table alone. -/
theorem findRoom_updateGame (db : DB) (gid : Nat) (f : Game → Game) (rid : Nat) :
    (db.updateGame gid f).findRoom rid = db.findRoom rid := rfl

/-- `award_game_victory_points` leaves the games table alone. -/
theorem findGame_award_victory (db : DB) (uid gid : Nat) :
    (GameService.award_game_victory_points db uid).findGame gid = db.findGame gid := by
  exact findGame_ext _ _ (by
    unfold GameService.award_game_victory_points
    split <;> rfl) gid

/-- `award_winner_card` leaves the games table alone. -/
theorem findGame_award_card (db : DB) (uid pick gid : Nat) :
    (GameService.award_winner_card db uid pick).findGame gid = db.findGame gid := by
  exact findGame_ext _ _ (by
    unfold GameService.award_winner_card
    split <;> rfl) gid

/-- `award_game_victory_points` leaves the rooms table alone. -/
theorem findRoom_award_victory (db : DB) (uid rid : Nat) :
    (GameService.award_game_victory_points db uid).findRoom rid = db.findRoom rid := by
  exact findRoom_ext _ _ (by
    unfold GameService.award_game_victory_points
    split <;> rfl) rid

/-- `award_winner_card` leaves the rooms table alone. -/
theorem findRoom_award_card (db : DB) (uid pick rid : Nat) :
    (GameService.award_winner_card db uid pick).findRoom rid = db.findRoom rid := by
  exact findRoom_ext _ _ (by
    unfold GameService.award_winner_card
    split <;> rfl) rid

/-- `award_winner_card` leaves the users table alone. -/
theorem findUser_award_card (db : DB) (uid pick uid2 : Nat) :
    (GameService.award_winner_card db uid pick).findUser uid2 = db.findUser uid2 := by
  exact findUser_ext _ _ (by
    unfold GameService.award_winner_card
    split <;> rfl) uid2

/-- `award_game_victory_points` leaves the cards table alone. -/
theorem user_cards_award_victory (db : DB) (uid : Nat) :
    (GameService.award_game_victory_points db uid).user_cards = db.user_cards := by
  unfold GameService.award_game_victory_points
  split <;> rfl

/-- `updateRound` rewrites the row a successful `findRound` saw. -/
theorem findRound_updateRound_of (db : DB) (rid : Nat) (f : GameRound → GameRound)
    (r : GameRound) (hf : ∀ r, (f r).id = r.id) (hr : db.findRound rid = some r) :
    (db.updateRound rid f).findRound rid = some (f r) := by
  rw [findRound_updateRound db rid f hf, hr]
  rfl

/-- `updateRoom` rewrites the row a successful `findRoom` saw. -/
theorem findRoom_updateRoom_of (db : DB) (rid : Nat) (f : Room → Room)
    (r : Room) (hf : ∀ r, (f r).id = r.id) (hr : db.findRoom rid = some r) :
    (db.updateRoom rid f).findRoom rid = some (f r) := by
  rw [findRoom_updateRoom db rid f hf, hr]
  rfl

/-- `award_round_points` only touches `users`. -/
theorem award_round_points_fields (db : DB) (uid : Nat) :
    (GameService.award_round_points db uid).games = db.games ∧
    (GameService.award_round_points db uid).rounds = db.rounds ∧
    (GameService.award_round_points db uid).rooms = db.rooms := by
  unfold GameService.award_round_points
  split <;> exact ⟨rfl, rfl, rfl⟩

/-- What a `start_round` call that created a round did: the round record it
built and the game row it left behind, in terms of the game row it read. -/
theorem start_round_started (db : DB) (game_id : Nat) (st : Option String)
    (now : Int) (rid pick : Nat) (game : Game) (db3 : DB) (r : GameRound)
    (hg : db.findGame game_id = some game)
    (h : GameService.start_round db game_id st now rid pick =
      Except.ok (GameService.StartRoundOutcome.started db3 r)) :
    r = { id := rid, game_id := game_id, round_number := game.current_round + 1,
          situation_text :=
            st.getD ("Generating situation for round " ++ toString (game.current_round + 1)),
          duration_seconds :=
            if (game.current_round : Int) ≤ 5 then
              GameService.CARD_SELECTION_TIMEOUT - ((game.current_round : Int) - 1) * 5
            else 30,
          started_at := now,
          selection_deadline := now +
            (if (game.current_round : Int) ≤ 5 then
              GameService.CARD_SELECTION_TIMEOUT - ((game.current_round : Int) - 1) * 5
            else 30),
          voting_deadline := now +
            (if (game.current_round : Int) ≤ 5 then
              GameService.CARD_SELECTION_TIMEOUT - ((game.current_round : Int) - 1) * 5
            else 30) + GameService.VOTING_TIMEOUT,
          finished_at := none, auto_advanced := false } ∧
    db3.findGame game_id =
      some { game with
             status := GameStatus.card_selection
             current_round := game.current_round + 1 } := by
  unfold GameService.start_round at h
  rw [hg] at h
  dsimp only at h
  by_cases h1 : game.status ≠ GameStatus.starting ∧ game.status ≠ GameStatus.round_results
  · rw [if_pos h1] at h
    exact Except.noConfusion h
  · rw [if_neg h1] at h
    by_cases h2 : (DB.activeParticipants
        (PlayerManager.cleanup_inactive_players db game.room_id) game.room_id).length < 3
    · rw [if_pos h2] at h
      cases hend : GameService.end_game
          (PlayerManager.cleanup_inactive_players db game.room_id) game_id now pick with
      | ok p =>
        obtain ⟨db2, w⟩ := p
        rw [hend] at h
        dsimp only at h
        simp at h
      | error e =>
        rw [hend] at h
        dsimp only at h
        exact Except.noConfusion h
    · rw [if_neg h2] at h
      simp only [Except.ok.injEq, GameService.StartRoundOutcome.started.injEq] at h
      obtain ⟨hdb, hr2⟩ := h
      subst hdb
      subst hr2
      refine ⟨rfl, ?_⟩
      exact findGame_updateGame_of _ game_id _ game (fun _ => rfl) hg

/-- C1 counterexample: in a fresh game (`current_round = 1`), `start_round`
creates the round numbered 2 with a 300-second selection duration, while
the claimed schedule assigns 45 seconds to round 2 (and 50 to round 1);
the duration matches the schedule at no index of the created round. -/
theorem C1_schedule_counterexample :
    ((outcomeRound (GameService.start_round startingDB 1 (some "sit") 1000 10 0)).getD
      dummyRound).round_number = 2 ∧
    ((outcomeRound (GameService.start_round startingDB 1 (some "sit") 1000 10 0)).getD
      dummyRound).duration_seconds = 300 ∧
    specSelectionSchedule 2 = 45 ∧
    specSelectionSchedule 1 = 50 ∧
    ((outcomeRound (GameService.start_round startingDB 1 (some "sit") 1000 10 0)).getD
      dummyRound).duration_seconds ≠
      (specSelectionSchedule (((outcomeRound
        (GameService.start_round startingDB 1 (some "sit") 1000 10 0)).getD
          dummyRound).round_number) : Int) := by
  decide

/-- C1 amended: a round started when the game row holds `current_round = c`
gets `duration = 300 - (c - 1) * 5` for `c ≤ 5` and 30 beyond (the
constant is `CARD_SELECTION_TIMEOUT = 300`, indexed by the pre-increment
counter, not the created round's number); the deadline arithmetic is as
claimed: `selection_deadline = started_at + duration` and
`voting_deadline = selection_deadline + 180`. -/
theorem C1_round_timing (db : DB) (game_id : Nat) (st : Option String)
    (now : Int) (rid pick : Nat) (game : Game) (r : GameRound)
    (hg : db.findGame game_id = some game)
    (hr : outcomeRound (GameService.start_round db game_id st now rid pick) = some r) :
    r.duration_seconds =
      (if (game.current_round : Int) ≤ 5 then
        GameService.CARD_SELECTION_TIMEOUT - ((game.current_round : Int) - 1) * 5
      else 30) ∧
    r.round_number = game.current_round + 1 ∧
    r.started_at = now ∧
    r.selection_deadline = r.started_at + r.duration_seconds ∧
    r.voting_deadline = r.selection_deadline + GameService.VOTING_TIMEOUT := by
  cases hres : GameService.start_round db game_id st now rid pick with
  | error e =>
    rw [hres] at hr
    simp [outcomeRound] at hr
  | ok out =>
    cases out with
    | ended db2 w =>
      rw [hres] at hr
      simp [outcomeRound] at hr
    | started db3 r0 =>
      rw [hres] at hr
      simp only [outcomeRound, Option.some.injEq] at hr
      subst hr
      obtain ⟨hrec, _⟩ := start_round_started db game_id st now rid pick game db3 r0 hg hres
      subst hrec
      exact ⟨rfl, rfl, rfl, rfl, rfl⟩

/-- C1 witness: the first round of the sample starting game runs 300
seconds, from 1000 to 1300, with voting until 1480. -/
theorem C1_round_timing_witness :
    sampleRound1.duration_seconds =
      (if (game1start.current_round : Int) ≤ 5 then
        GameService.CARD_SELECTION_TIMEOUT - ((game1start.current_round : Int) - 1) * 5
      else 30) ∧
    sampleRound1.round_number = game1start.current_round + 1 ∧
    sampleRound1.started_at = 1000 ∧
    sampleRound1.selection_deadline = sampleRound1.started_at + sampleRound1.duration_seconds ∧
    sampleRound1.voting_deadline = sampleRound1.selection_deadline + GameService.VOTING_TIMEOUT :=
  C1_round_timing startingDB 1 (some "sit") 1000 10 0 game1start sampleRound1 rfl rfl

/-- C2 counterexample: after `start_game` (which writes `current_round = 1`)
the first `start_round` creates the round numbered 2, not 1. -/
theorem C2_first_round_counterexample :
    isOk (RoomService.start_game lobbyDB 1 1 1) = true ∧
    ((outcomeRound (GameService.start_round afterStartGame 1 (some "sit") 1000 10 0)).getD
      dummyRound).round_number = 2 ∧
    ((outcomeRound (GameService.start_round afterStartGame 1 (some "sit") 1000 10 0)).getD
      dummyRound).round_number ≠ 1 := by
  decide

/-- C2 amended: `start_game` creates the game with `current_round = 1`;
every round-creating `start_round` increments `current_round` by exactly
one and numbers the created round with the incremented value, so the FIRST
`start_round` creates round number 2; the scheduler
(`_schedule_next_round`) starts the next round only when the finished
round's number is below 7, so a round it starts is numbered at most 7. -/
theorem C2_round_numbering :
    (∀ db room_id user_id gid db2 g,
        RoomService.start_game db room_id user_id gid = Except.ok (db2, g) →
        g.current_round = 1 ∧ g.status = GameStatus.starting) ∧
    (∀ db gid st now rid pick g r,
        DB.findGame db gid = some g →
        outcomeRound (GameService.start_round db gid st now rid pick) = some r →
        r.round_number = g.current_round + 1 ∧
        (outcomeDB (GameService.start_round db gid st now rid pick)).findGame gid =
          some { g with
                 status := GameStatus.card_selection
                 current_round := g.current_round + 1 }) ∧
    (∀ db gid cr now rid pick g r,
        DB.findGame db gid = some g → g.current_round = cr → cr ≤ 7 →
        outcomeRound (GameService.schedule_next_round db gid cr now rid pick) = some r →
        r.round_number = cr + 1 ∧ r.round_number ≤ 7) := by
  have hpart2 : ∀ db gid st now rid pick g r,
      DB.findGame db gid = some g →
      outcomeRound (GameService.start_round db gid st now rid pick) = some r →
      r.round_number = g.current_round + 1 ∧
      (outcomeDB (GameService.start_round db gid st now rid pick)).findGame gid =
        some { g with
               status := GameStatus.card_selection
               current_round := g.current_round + 1 } := by
    intro db gid st now rid pick g r hg hr
    cases hres : GameService.start_round db gid st now rid pick with
    | error e =>
      rw [hres] at hr
      simp [outcomeRound] at hr
    | ok out =>
      cases out with
      | ended db2 w =>
        rw [hres] at hr
        simp [outcomeRound] at hr
      | started db3 r0 =>
        rw [hres] at hr
        simp only [outcomeRound, Option.some.injEq] at hr
        subst hr
        obtain ⟨hrec, hfind⟩ := start_round_started db gid st now rid pick g db3 r0 hg hres
        subst hrec
        exact ⟨rfl, hfind⟩
  refine ⟨?_, hpart2, ?_⟩
  · intro db room_id user_id gid db2 g h
    unfold RoomService.start_game at h
    cases hrm : db.findRoom room_id with
    | none => rw [hrm] at h; exact Except.noConfusion h
    | some room =>
      rw [hrm] at h
      dsimp only at h
      by_cases h1 : room.creator_id ≠ user_id
      · rw [if_pos h1] at h; exact Except.noConfusion h
      · rw [if_neg h1] at h
        by_cases h2 : room.status ≠ RoomStatus.waiting
        · rw [if_pos h2] at h; exact Except.noConfusion h
        · rw [if_neg h2] at h
          by_cases h3 : RoomService.get_active_players_count db room_id < 3
          · rw [if_pos h3] at h; exact Except.noConfusion h
          · rw [if_neg h3] at h
            simp only [Except.ok.injEq, Prod.mk.injEq] at h
            obtain ⟨_, hga⟩ := h
            subst hga
            exact ⟨rfl, rfl⟩
  · intro db gid cr now rid pick g r hg hcr h7 hr
    unfold GameService.schedule_next_round at hr
    rw [hg] at hr
    dsimp only at hr
    by_cases hge : cr ≥ 7
    · rw [if_pos hge] at hr
      cases hend : GameService.end_game db gid now pick with
      | ok p =>
        obtain ⟨db2, w⟩ := p
        rw [hend] at hr
        simp [outcomeRound] at hr
      | error e =>
        rw [hend] at hr
        simp [outcomeRound] at hr
    · rw [if_neg hge] at hr
      have := (hpart2 db gid none now rid pick g r hg hr).1
      rw [this, hcr]
      omega

/-- C2 witness: start_game writes round counter 1; the first start_round
creates round 2 and bumps the counter to 2; the scheduler, fed the
finished round number 2, starts round 3, which is at most 7. -/
theorem C2_round_numbering_witness :
    game1start.current_round = 1 ∧ game1start.status = GameStatus.starting ∧
    sampleRound1.round_number = game1start.current_round + 1 ∧
    (outcomeDB (GameService.start_round startingDB 1 (some "sit") 1000 10 0)).findGame 1 =
      some { game1start with status := GameStatus.card_selection, current_round := 2 } ∧
    ((outcomeRound (GameService.schedule_next_round resultsDB 1 2 2000 20 0)).getD
      dummyRound).round_number = 2 + 1 ∧
    ((outcomeRound (GameService.schedule_next_round resultsDB 1 2 2000 20 0)).getD
      dummyRound).round_number ≤ 7 :=
  ⟨(C2_round_numbering.1 lobbyDB 1 1 1 afterStartGame game1start rfl).1,
   (C2_round_numbering.1 lobbyDB 1 1 1 afterStartGame game1start rfl).2,
   (C2_round_numbering.2.1 startingDB 1 (some "sit") 1000 10 0 game1start sampleRound1 rfl rfl).1,
   (C2_round_numbering.2.1 startingDB 1 (some "sit") 1000 10 0 game1start sampleRound1 rfl rfl).2,
   (C2_round_numbering.2.2 resultsDB 1 2 2000 20 0 game1results
     ((outcomeRound (GameService.schedule_next_round resultsDB 1 2 2000 20 0)).getD dummyRound)
     rfl rfl (by decide) rfl).1,
   (C2_round_numbering.2.2 resultsDB 1 2 2000 20 0 game1results
     ((outcomeRound (GameService.schedule_next_round resultsDB 1 2 2000 20 0)).getD dummyRound)
     rfl rfl (by decide) rfl).2⟩

/-- C4 counterexample: with two choices tied at one vote each, the query
may return the later-submitted choice first (a valid descending order),
and the aggregation then crowns the later-submitted choice, not the
earliest-submitted one. -/
theorem C4_tiebreak_counterexample :
    GameService.resultRowsValid tieDB 10 [tieChoiceB, tieChoiceA] ∧
    (okSnd dummyRoundResult
      (GameService.calculate_round_results tieDB 10 [tieChoiceB, tieChoiceA] 50)).winner =
      some tieChoiceB ∧
    tieDB.voteCount tieChoiceA.id = tieDB.voteCount tieChoiceB.id ∧
    tieChoiceA.submitted_at < tieChoiceB.submitted_at := by
  refine ⟨⟨?_, ?_⟩, ?_, ?_, ?_⟩ <;> decide

/-- C4 amended: `calculate_round_results` crowns the FIRST row of the
vote-count-descending query result; among vote-count ties the database's
unspecified row order decides, not the earliest submission. The winner's
user gains +1 rating exactly when the winning vote count is positive; the
game moves to `round_results` and the round receives `finished_at`. -/
theorem C4_round_results_tiebreak (db : DB) (round_id : Nat) (x : PlayerChoice)
    (l : List PlayerChoice) (now : Int) (rnd : GameRound) (game : Game)
    (db2 : DB) (res : GameService.RoundResult)
    (hr : db.findRound round_id = some rnd)
    (hg : db.findGame rnd.game_id = some game)
    (hsort : (x :: l).Pairwise (fun a b => db.voteCount b.id ≤ db.voteCount a.id))
    (h : GameService.calculate_round_results db round_id (x :: l) now =
      Except.ok (db2, res)) :
    res.winner = some x ∧
    res.max_votes = (db.voteCount x.id : Int) ∧
    db2.findGame rnd.game_id = some { game with status := GameStatus.round_results } ∧
    db2.findRound round_id = some { rnd with finished_at := some now } ∧
    (0 < db.voteCount x.id → ∀ u, db.findUser x.user_id = some u →
       db2.findUser x.user_id = some { u with rating := u.rating + 1 }) ∧
    (db.voteCount x.id = 0 → db2.users = db.users) := by
  have hmax : ∀ y ∈ l, db.voteCount y.id ≤ db.voteCount x.id :=
    (List.pairwise_cons.mp hsort).1
  have hgid : game.id = rnd.game_id := by
    have := List.find?_some hg
    simpa using this
  unfold GameService.calculate_round_results at h
  rw [hr] at h
  dsimp only at h
  rw [hg] at h
  dsimp only at h
  rw [pickWinner_head db x l hmax] at h
  dsimp only at h
  by_cases hcnt : (db.voteCount x.id : Int) > 0
  · rw [if_pos hcnt] at h
    simp only [Except.ok.injEq, Prod.mk.injEq] at h
    obtain ⟨hdb, hres⟩ := h
    subst hdb
    subst hres
    have hg2 : db.findGame game.id = some game := by rw [hgid]; exact hg
    refine ⟨rfl, rfl, ?_, ?_, ?_, ?_⟩
    · rw [findGame_ext _ (DB.updateRound (DB.updateGame db game.id
          (fun g => { g with status := GameStatus.round_results })) round_id
          (fun r => { r with finished_at := some now }))
        (award_round_points_fields _ _).1 rnd.game_id]
      rw [findGame_updateRound, ← hgid]
      exact findGame_updateGame_of db game.id _ game (fun _ => rfl) hg2
    · rw [findRound_ext _ (DB.updateRound (DB.updateGame db game.id
          (fun g => { g with status := GameStatus.round_results })) round_id
          (fun r => { r with finished_at := some now }))
        (award_round_points_fields _ _).2.1 round_id]
      exact findRound_updateRound_of _ round_id _ rnd (fun _ => rfl) hr
    · intro _ u hu
      exact award_round_points_rating _ x.user_id u hu
    · intro h0
      exact absurd hcnt (by omega)
  · rw [if_neg hcnt] at h
    simp only [Except.ok.injEq, Prod.mk.injEq] at h
    obtain ⟨hdb, hres⟩ := h
    subst hdb
    subst hres
    have hg2 : db.findGame game.id = some game := by rw [hgid]; exact hg
    refine ⟨rfl, rfl, ?_, ?_, ?_, ?_⟩
    · rw [findGame_updateRound, ← hgid]
      exact findGame_updateGame_of db game.id _ game (fun _ => rfl) hg2
    · exact findRound_updateRound_of _ round_id _ rnd (fun _ => rfl) hr
    · intro hpos
      exact absurd hpos (by omega)
    · intro _
      rfl

/-- C4 witness: in the tie world the first query row wins, the round is
closed at time 50 and the winner's user gains one rating point. -/
theorem C4_round_results_witness :
    (okSnd dummyRoundResult
      (GameService.calculate_round_results tieDB 10 [tieChoiceB, tieChoiceA] 50)).winner =
      some tieChoiceB ∧
    (dbOf (GameService.calculate_round_results tieDB 10 [tieChoiceB, tieChoiceA] 50)).findRound 10 =
      some { round10v with finished_at := some 50 } ∧
    (dbOf (GameService.calculate_round_results tieDB 10 [tieChoiceB, tieChoiceA] 50)).findUser 2 =
      some { userB with rating := userB.rating + 1 } :=
  ⟨(C4_round_results_tiebreak tieDB 10 tieChoiceB [tieChoiceA] 50 round10v game1vote
      (dbOf (GameService.calculate_round_results tieDB 10 [tieChoiceB, tieChoiceA] 50))
      (okSnd dummyRoundResult
        (GameService.calculate_round_results tieDB 10 [tieChoiceB, tieChoiceA] 50))
      rfl rfl (by decide) rfl).1,
   (C4_round_results_tiebreak tieDB 10 tieChoiceB [tieChoiceA] 50 round10v game1vote
      (dbOf (GameService.calculate_round_results tieDB 10 [tieChoiceB, tieChoiceA] 50))
      (okSnd dummyRoundResult
        (GameService.calculate_round_results tieDB 10 [tieChoiceB, tieChoiceA] 50))
      rfl rfl (by decide) rfl).2.2.2.1,
   (C4_round_results_tiebreak tieDB 10 tieChoiceB [tieChoiceA] 50 round10v game1vote
      (dbOf (GameService.calculate_round_results tieDB 10 [tieChoiceB, tieChoiceA] 50))
      (okSnd dummyRoundResult
        (GameService.calculate_round_results tieDB 10 [tieChoiceB, tieChoiceA] 50))
      rfl rfl (by decide) rfl).2.2.2.2.1 (by decide) userB rfl⟩

/-- C3 counterexample: in the game-end world user 2 has the highest VOTE
TOTAL (3) but won ZERO rounds (rounds 11, 12, 13 are won by users 1, 3 and
4); `end_game` nevertheless makes user 2 the stored winner and grants the
+5 rating and a standard card, contradicting the claim that the winner is
the top participant by rounds won and is rewarded only having won a
round. -/
theorem C3_end_game_counterexample :
    winnerOf (GameService.end_game gameEndDB 1 9999 0) = some 2 ∧
    specRoundsWon gameEndDB 1 2 = 0 ∧
    specRoundsWon gameEndDB 1 1 = 1 ∧
    specRoundsWon gameEndDB 1 3 = 1 ∧
    specRoundsWon gameEndDB 1 4 = 1 ∧
    (dbOf (GameService.end_game gameEndDB 1 9999 0)).findGame 1 =
      some { id := 1, room_id := 1, status := GameStatus.finished,
             current_round := 4, winner_id := some 2, finished_at := some 9999 } ∧
    (dbOf (GameService.end_game gameEndDB 1 9999 0)).findUser 2 =
      some { userB with rating := 5 } ∧
    (dbOf (GameService.end_game gameEndDB 1 9999 0)).user_cards =
      [{ user_id := 2, card_type := "standard", card_number := 1 }] := by
  decide

/-- C3 amended: `end_game` ranks the users having at least one choice in
the game by TOTAL VOTES RECEIVED across all its rounds (the column the
source labels `round_wins`); the first row of that ranking becomes the
stored `winner_id` unconditionally, game and room are marked `finished`,
and the +5 rating together with one randomly chosen standard card the
winner does not own is granted exactly when the top row's vote total is
positive (and its user id nonzero, by Python truthiness). -/
theorem C3_end_game_awards (db : DB) (game_id : Nat) (now : Int) (pick : Nat)
    (game : Game) (db2 : DB) (w : Option Nat)
    (hg : db.findGame game_id = some game)
    (h : GameService.end_game db game_id now pick = Except.ok (db2, w)) :
    w = (GameService.leaderboard db game_id).head?.map Prod.fst ∧
    db2.findGame game_id =
      some { game with
             status := GameStatus.finished
             winner_id := w
             finished_at := some now } ∧
    (∀ room, db.findRoom game.room_id = some room →
       db2.findRoom game.room_id = some { room with status := RoomStatus.finished }) ∧
    (∀ uid wins, (GameService.leaderboard db game_id).head? = some (uid, wins) →
       ((uid ≠ 0 ∧ wins > 0) →
          cardAwardOk db db2 uid ∧
          (∀ u, db.findUser uid = some u →
             db2.findUser uid = some { u with rating := u.rating + 5 })) ∧
       (¬(uid ≠ 0 ∧ wins > 0) →
          db2.users = db.users ∧ db2.user_cards = db.user_cards)) ∧
    ((GameService.leaderboard db game_id).head? = none →
       w = none ∧ db2.users = db.users ∧ db2.user_cards = db.user_cards) := by
  unfold GameService.end_game at h
  rw [hg] at h
  dsimp only at h
  cases hlb : (GameService.leaderboard db game_id).head? with
  | none =>
    rw [hlb] at h
    dsimp only at h
    cases hrm : db.findRoom game.room_id with
    | none =>
      rw [hrm] at h
      dsimp only at h
      simp only [Except.ok.injEq, Prod.mk.injEq] at h
      obtain ⟨hdb, hw⟩ := h
      subst hdb
      subst hw
      refine ⟨rfl, ?_, ?_, ?_, ?_⟩
      · exact findGame_updateGame_of db game_id _ game (fun _ => rfl) hg
      · intro room hroom
        exact Option.noConfusion hroom
      · intro uid wins heq
        exact Option.noConfusion heq
      · intro _
        exact ⟨rfl, rfl, rfl⟩
    | some room0 =>
      rw [hrm] at h
      dsimp only at h
      simp only [Except.ok.injEq, Prod.mk.injEq] at h
      obtain ⟨hdb, hw⟩ := h
      subst hdb
      subst hw
      refine ⟨rfl, ?_, ?_, ?_, ?_⟩
      · rw [findGame_updateRoom]
        exact findGame_updateGame_of db game_id _ game (fun _ => rfl) hg
      · intro room hroom
        simp only [Option.some.injEq] at hroom
        subst hroom
        refine findRoom_updateRoom_of _ game.room_id _ room0 (fun _ => rfl) ?_
        rw [findRoom_updateGame]
        exact hrm
      · intro uid wins heq
        exact Option.noConfusion heq
      · intro _
        exact ⟨rfl, rfl, rfl⟩
  | some uw =>
    obtain ⟨uid0, wins0⟩ := uw
    rw [hlb] at h
    dsimp only at h
    cases hrm : db.findRoom game.room_id with
    | none =>
      rw [hrm] at h
      dsimp only at h
      by_cases hcond : uid0 ≠ 0 ∧ wins0 > 0
      · rw [if_pos hcond] at h
        simp only [Except.ok.injEq, Prod.mk.injEq] at h
        obtain ⟨hdb, hw⟩ := h
        subst hdb
        subst hw
        refine ⟨rfl, ?_, ?_, ?_, ?_⟩
        · rw [findGame_award_victory, findGame_award_card]
          exact findGame_updateGame_of db game_id _ game (fun _ => rfl) hg
        · intro room hroom
          exact Option.noConfusion hroom
        · intro uid wins heq
          simp only [Option.some.injEq, Prod.mk.injEq] at heq
          obtain ⟨h1, h2⟩ := heq
          subst h1
          subst h2
          refine ⟨fun _ => ⟨?_, ?_⟩, fun hc => absurd hcond hc⟩
          · have hca := award_winner_card_ok
              (DB.updateGame db game_id (fun g =>
                { g with
                  status := GameStatus.finished
                  winner_id := some uid0
                  finished_at := some now })) uid0 pick
            unfold cardAwardOk at hca ⊢
            rw [user_cards_award_victory]
            exact hca
          · intro u hu
            refine award_game_victory_points_rating _ uid0 u ?_
            rw [findUser_award_card]
            exact hu
        · intro hnone
          exact Option.noConfusion hnone
      · rw [if_neg hcond] at h
        simp only [Except.ok.injEq, Prod.mk.injEq] at h
        obtain ⟨hdb, hw⟩ := h
        subst hdb
        subst hw
        refine ⟨rfl, ?_, ?_, ?_, ?_⟩
        · exact findGame_updateGame_of db game_id _ game (fun _ => rfl) hg
        · intro room hroom
          exact Option.noConfusion hroom
        · intro uid wins heq
          simp only [Option.some.injEq, Prod.mk.injEq] at heq
          obtain ⟨h1, h2⟩ := heq
          subst h1
          subst h2
          exact ⟨fun hc => absurd hc hcond, fun _ => ⟨rfl, rfl⟩⟩
        · intro hnone
          exact Option.noConfusion hnone
    | some room0 =>
      rw [hrm] at h
      dsimp only at h
      by_cases hcond : uid0 ≠ 0 ∧ wins0 > 0
      · rw [if_pos hcond] at h
        simp only [Except.ok.injEq, Prod.mk.injEq] at h
        obtain ⟨hdb, hw⟩ := h
        subst hdb
        subst hw
        refine ⟨rfl, ?_, ?_, ?_, ?_⟩
        · rw [findGame_award_victory, findGame_award_card, findGame_updateRoom]
          exact findGame_updateGame_of db game_id _ game (fun _ => rfl) hg
        · intro room hroom
          simp only [Option.some.injEq] at hroom
          subst hroom
          rw [findRoom_award_victory, findRoom_award_card]
          refine findRoom_updateRoom_of _ game.room_id _ room0 (fun _ => rfl) ?_
          rw [findRoom_updateGame]
          exact hrm
        · intro uid wins heq
          simp only [Option.some.injEq, Prod.mk.injEq] at heq
          obtain ⟨h1, h2⟩ := heq
          subst h1
          subst h2
          refine ⟨fun _ => ⟨?_, ?_⟩, fun hc => absurd hcond hc⟩
          · have hca := award_winner_card_ok
              (DB.updateRoom (DB.updateGame db game_id (fun g =>
                { g with
                  status := GameStatus.finished
                  winner_id := some uid0
                  finished_at := some now })) game.room_id (fun r =>
                { r with status := RoomStatus.finished })) uid0 pick
            unfold cardAwardOk at hca ⊢
            rw [user_cards_award_victory]
            exact hca
          · intro u hu
            refine award_game_victory_points_rating _ uid0 u ?_
            rw [findUser_award_card]
            exact hu
        · intro hnone
          exact Option.noConfusion hnone
      · rw [if_neg hcond] at h
        simp only [Except.ok.injEq, Prod.mk.injEq] at h
        obtain ⟨hdb, hw⟩ := h
        subst hdb
        subst hw
        refine ⟨rfl, ?_, ?_, ?_, ?_⟩
        · rw [findGame_updateRoom]
          exact findGame_updateGame_of db game_id _ game (fun _ => rfl) hg
        · intro room hroom
          simp only [Option.some.injEq] at hroom
          subst hroom
          refine findRoom_updateRoom_of _ game.room_id _ room0 (fun _ => rfl) ?_
          rw [findRoom_updateGame]
          exact hrm
        · intro uid wins heq
          simp only [Option.some.injEq, Prod.mk.injEq] at heq
          obtain ⟨h1, h2⟩ := heq
          subst h1
          subst h2
          exact ⟨fun hc => absurd hc hcond, fun _ => ⟨rfl, rfl⟩⟩
        · intro hnone
          exact Option.noConfusion hnone

/-- C3 witness: in the game-end world the stored winner is the head of the
vote-total leaderboard, the game row is closed, the finished room row is
written, and the winner (vote total 3 > 0) receives +5 rating. -/
theorem C3_end_game_awards_witness :
    winnerOf (GameService.end_game gameEndDB 1 9999 0) =
      (GameService.leaderboard gameEndDB 1).head?.map Prod.fst ∧
    (dbOf (GameService.end_game gameEndDB 1 9999 0)).findGame 1 =
      some { gameEndGame with
             status := GameStatus.finished
             winner_id := winnerOf (GameService.end_game gameEndDB 1 9999 0)
             finished_at := some 9999 } ∧
    (dbOf (GameService.end_game gameEndDB 1 9999 0)).findRoom 1 =
      some { room1playing with status := RoomStatus.finished } ∧
    (dbOf (GameService.end_game gameEndDB 1 9999 0)).findUser 2 =
      some { userB with rating := userB.rating + 5 } :=
  ⟨(C3_end_game_awards gameEndDB 1 9999 0 gameEndGame _ _ rfl rfl).1,
   (C3_end_game_awards gameEndDB 1 9999 0 gameEndGame _ _ rfl rfl).2.1,
   (C3_end_game_awards gameEndDB 1 9999 0 gameEndGame _ _ rfl rfl).2.2.1
     room1playing rfl,
   ((C3_end_game_awards gameEndDB 1 9999 0 gameEndGame _ _ rfl rfl).2.2.2.1
     2 3 rfl).1 (by decide) |>.2 userB rfl⟩

end MemeBattle
